import Mathlib

/-!
Verification development for the DJS insurance-brokerage chatbot
(session/flow engine: dedup cache, session store, flow router, flow
handlers).  The JavaScript sources are shallowly embedded: pure string
helpers become Lean functions on `String`/`List Char`; the stateful
components (`StateManager`, `CacheSystem`, `MainFlow`, `CotacaoFlow`)
become explicit state-passing functions over record types, with wall-clock
time passed as an explicit `Nat` (milliseconds, as produced by
`Date.now()`), and the outbound WhatsApp traffic collected as an explicit
trace of events.

Timers created with `setTimeout` are modelled as explicitly recorded
pending events (re-enable timers of `StateManager.disableBot`) or, for the
fire-and-forget two-second "finalization menu" follow-ups inside handlers,
folded into the handler's own trace in scheduling order.
-/

namespace Djs

/-! ## Character and string helpers (JS semantics)

`Utils.normalizeText` does
`text.toLowerCase().trim().normalize('NFD').replace(/[̀-ͯ]/g,'')
  .replace(/[^\w\s]/g,' ').replace(/\s+/g,' ')`.
We model the composition `toLowerCase` + NFD + combining-mark removal as a
single character map `normChar` over precomposed characters (the inputs of
the embedding are sequences of Unicode scalars; for the Latin-1 letters the
chatbot deals in, lower-casing followed by NFD and mark stripping sends
each accented letter to its plain lower-case ASCII base letter). -/

/-- JS whitespace class `\s` (the members relevant to this code base:
ASCII whitespace, NBSP and the BOM). -/
def isJsWs (c : Char) : Bool :=
  c = ' ' || c = '\t' || c = '\n' || c = '\r' ||
  c = (Char.ofNat 11) || c = (Char.ofNat 12) ||
  c = (Char.ofNat 0xA0) || c = (Char.ofNat 0xFEFF)

/-- JS word class `\w` = `[A-Za-z0-9_]` (ASCII only). -/
def isJsWord (c : Char) : Bool :=
  ('a' ≤ c && c ≤ 'z') || ('A' ≤ c && c ≤ 'Z') || ('0' ≤ c && c ≤ '9') || c = '_'

/-- Lower-case an ASCII letter (`String.prototype.toLowerCase` restricted to
the characters this code base compares). -/
def lowerAscii (c : Char) : Char :=
  if 'A' ≤ c && c ≤ 'Z' then Char.ofNat (c.toNat + 32) else c

/-- `toLowerCase` + NFD + removal of combining marks, as one map on
precomposed Latin-1 letters: each accented letter falls to its lower-case
ASCII base letter; everything else is only lower-cased. -/
def normChar (c : Char) : Char :=
  let c := lowerAscii c
  match c with
  | 'á' | 'à' | 'â' | 'ã' | 'ä' | 'Á' | 'À' | 'Â' | 'Ã' | 'Ä' => 'a'
  | 'é' | 'è' | 'ê' | 'ë' | 'É' | 'È' | 'Ê' | 'Ë' => 'e'
  | 'í' | 'ì' | 'î' | 'ï' | 'Í' | 'Ì' | 'Î' | 'Ï' => 'i'
  | 'ó' | 'ò' | 'ô' | 'õ' | 'ö' | 'Ó' | 'Ò' | 'Ô' | 'Õ' | 'Ö' => 'o'
  | 'ú' | 'ù' | 'û' | 'ü' | 'Ú' | 'Ù' | 'Û' | 'Ü' => 'u'
  | 'ç' | 'Ç' => 'c'
  | 'ñ' | 'Ñ' => 'n'
  | 'ý' | 'ÿ' | 'Ý' => 'y'
  | _ => c

/-- `String.prototype.trim`: drop JS whitespace from both ends. -/
def jsTrimList (l : List Char) : List Char :=
  ((l.dropWhile isJsWs).reverse.dropWhile isJsWs).reverse

def jsTrim (s : String) : String :=
  String.mk (jsTrimList s.toList)

/-- `.replace(/\s+/g, ' ')`: collapse every maximal run of whitespace to
a single space (the run is replaced wherever it stands, ends included).
`prevWs` records whether the previous character belonged to a run already
replaced. -/
def collapseWsAux (prevWs : Bool) : List Char → List Char
  | [] => []
  | c :: cs =>
    if isJsWs c then
      if prevWs then collapseWsAux true cs
      else ' ' :: collapseWsAux true cs
    else c :: collapseWsAux false cs

def collapseWs (l : List Char) : List Char := collapseWsAux false l

/-- `Utils.normalizeText` (src/backend/src/core/utils.js): lower-case, trim,
strip accents, turn non-word non-space characters into spaces, collapse
whitespace runs.  (NFD and mark-removal are fused into `normChar`; since
`trim` only drops characters at the two ends it commutes with the
character-wise `normChar`, so we trim first.) -/
def normalizeText (s : String) : String :=
  String.mk <| collapseWs <|
    (jsTrimList s.toList).map (fun c =>
      let c := normChar c
      if isJsWord c || isJsWs c then c else ' ')

/-- `haystack.includes(needle)`: substring containment. -/
def listContainsSub [DecidableEq α] (needle : List α) : List α → Bool
  | [] => needle.isEmpty
  | c :: cs => needle.isPrefixOf (c :: cs) || listContainsSub needle cs

def strContains (haystack needle : String) : Bool :=
  listContainsSub needle.toList haystack.toList

/-! ## Utils keyword predicates (src/backend/src/core/utils.js) -/

/-- `Utils.isGreeting`: the keyword table, matched by
`normalized.includes(greeting) || normalized === greeting`. -/
def greetingsList : List String :=
  ["oi", "ola", "olá", "hello", "hi",
   "bom dia", "boa tarde", "boa noite",
   "bomdia", "boatarde", "boanoite",
   "oi bom dia", "ola bom dia",
   "eae", "e ai", "salve"]

def isGreeting (text : String) : Bool :=
  let normalized := normalizeText text
  greetingsList.any (fun g => strContains normalized g || normalized = g)

/-- `Utils.isFarewell`. -/
def farewellsList : List String :=
  ["tchau", "ate mais", "ate logo", "ate breve",
   "obrigado", "obrigada", "valeu", "ok obrigado",
   "tudo bem obrigado", "ja consegui", "ja resolvi",
   "fui", "vlw", "valeu mesmo"]

def isFarewell (text : String) : Bool :=
  let normalized := normalizeText text
  farewellsList.any (fun f => strContains normalized f)

/-- `Utils.isRequestingHuman`. -/
def humanRequestsList : List String :=
  ["atendente", "atendimento", "humano", "pessoa",
   "falar com alguem", "falar com pessoa",
   "quero falar com atendente", "preciso de ajuda",
   "corretor", "vendedor", "consultor",
   "nao consigo", "nao entendi", "ajuda",
   "suporte", "help"]

def isRequestingHuman (text : String) : Bool :=
  let normalized := normalizeText text
  humanRequestsList.any (fun r => strContains normalized r)

/-- `Utils.isMenuCommand`: the allow-listed reset/override commands, matched
by `normalized === command || normalized.includes(command)`. -/
def menuCommandsList : List String :=
  ["menu", "inicio", "começar", "comecar",
   "voltar", "start", "reiniciar"]

def isMenuCommand (text : String) : Bool :=
  let normalized := normalizeText text
  menuCommandsList.any (fun c => normalized = c || strContains normalized c)

/-- `Utils.isRequestingBack`. -/
def backRequestsList : List String :=
  ["voltar", "volta", "anterior", "antes",
   "menu anterior", "opcao anterior", "back"]

def isRequestingBack (text : String) : Bool :=
  let normalized := normalizeText text
  backRequestsList.any (fun r => strContains normalized r || normalized = r)

/-- Digit recognition `\d` and digit value. -/
def isDigitCh (c : Char) : Bool := '0' ≤ c && c ≤ '9'

def digitVal (c : Char) : Nat := c.toNat - 48

def digitsToNat (l : List Char) : Nat :=
  l.foldl (fun a c => a * 10 + digitVal c) 0

/-- `Utils.extractOptionNumber`: a leading digit run of the normalized text
(`/^(\d+)/` + `parseInt`), else the first number word (in the object's
insertion order) contained in the normalized text. -/
def numberWordsList : List (String × Nat) :=
  [("um", 1), ("uma", 1), ("primeiro", 1), ("primeira", 1),
   ("dois", 2), ("duas", 2), ("segundo", 2), ("segunda", 2),
   ("tres", 3), ("terceiro", 3), ("terceira", 3),
   ("quatro", 4), ("quarto", 4), ("quarta", 4),
   ("cinco", 5), ("quinto", 5), ("quinta", 5),
   ("seis", 6), ("sexto", 6), ("sexta", 6),
   ("sete", 7), ("setimo", 7), ("setima", 7),
   ("oito", 8), ("oitavo", 8), ("oitava", 8),
   ("nove", 9), ("nono", 9), ("nona", 9),
   ("dez", 10), ("decimo", 10), ("decima", 10)]

def extractOptionNumber (text : String) : Option Nat :=
  let normalized := normalizeText text
  let l := normalized.toList
  let run := l.takeWhile isDigitCh
  if run ≠ [] then
    some (digitsToNat run)
  else
    (numberWordsList.find? (fun p => strContains normalized p.1)).map (·.2)

/-- `Utils.isValidEmail`: the regex `/^[^\s@]+@[^\s@]+\.[^\s@]+$/`.  The
accepted language: exactly one `@`; a nonempty local part without
whitespace; a nonempty domain without whitespace or `@` containing a dot
that is neither its first nor its last character. -/
def isValidEmail (email : String) : Bool :=
  let l := email.toList
  match l.splitOn '@' with
  | [a, r] =>
    a ≠ [] && a.all (fun c => !isJsWs c) &&
    r.all (fun c => !isJsWs c) &&
    ((r.drop 1).dropLast.contains '.')
  | _ => false

/-- `Utils.isValidCPF` (src/backend/src/core/utils.js, lines 189-216):
keep the digits, require exactly 11, reject a constant string, then check
both weighted mod-11 check digits. -/
def cpfDigit1 (d : List Nat) : Nat :=
  let sum := (List.range 9).foldl (fun a i => a + d.getD i 0 * (10 - i)) 0
  let g := 11 - sum % 11
  if g > 9 then 0 else g

def cpfDigit2 (d : List Nat) : Nat :=
  let sum := (List.range 10).foldl (fun a i => a + d.getD i 0 * (11 - i)) 0
  let g := 11 - sum % 11
  if g > 9 then 0 else g

def isValidCPF (cpf : String) : Bool :=
  if cpf = "" then false
  else
    let numbers := cpf.toList.filter isDigitCh
    if numbers.length ≠ 11 then false
    else if (match numbers with
             | c :: rest => rest.all (· = c)
             | [] => false) then false
    else
      let d := numbers.map digitVal
      cpfDigit1 d = d.getD 9 0 && cpfDigit2 d = d.getD 10 0

/-- `Utils.formatPhone`: keep the digits and build a `@c.us` address. -/
def formatPhone (phone : String) : String :=
  if phone = "" then ""
  else
    let numbers := phone.toList.filter isDigitCh
    let ns := String.mk numbers
    if numbers.length = 11 && ['1', '1'].isPrefixOf numbers then
      "55" ++ ns ++ "@c.us"
    else if numbers.length = 10 then
      "5511" ++ ns ++ "@c.us"
    else if ['5', '5'].isPrefixOf numbers then
      ns ++ "@c.us"
    else phone

/-! ## CacheSystem (dedup cache)

The JS cache is a `Map` from string keys to
`{value, expirationTime, createdAt}`.  We model it as an association list
in insertion order; `Map.set` replaces an existing binding in place.  Wall
clock time is the explicit `now : Nat` parameter (milliseconds).

The per-entry `setTimeout(() => this.delete(key), ttl)` eviction timer
fires no earlier than `createdAt + ttl`, i.e. only at instants at which the
lazy expiry check of `get` already reports the entry absent
(`Date.now() > expirationTime`), so it is absorbed by the lazy check in
this model; `performCleanup`, the five-minute sweep, is modelled
explicitly.  `get` on an expired entry also deletes it in JS; the deletion
only removes an entry that every later query already treats as absent, so
`get` is modelled as a pure observation. -/

structure CacheEntry where
  value : Bool
  expirationTime : Nat
  createdAt : Nat
  deriving DecidableEq, Repr

def Cache := List (String × CacheEntry)

instance : DecidableEq Cache := inferInstanceAs (DecidableEq (List _))

instance : Repr Cache := inferInstanceAs (Repr (List _))

instance : Membership (String × CacheEntry) Cache :=
  inferInstanceAs (Membership _ (List _))

namespace CacheSystem

/-- `this.defaultTTL = 60000` (one minute in milliseconds). -/
def defaultTTL : Nat := 60000

def lookup (c : Cache) (key : String) : Option CacheEntry :=
  (c.find? (fun p => p.1 = key)).map (·.2)

/-- `Map.set`: replace an existing binding in place, else append. -/
def insertEntry (c : Cache) (key : String) (e : CacheEntry) : Cache :=
  match c with
  | [] => [(key, e)]
  | p :: rest =>
    if p.1 = key then (key, e) :: rest else p :: insertEntry rest key e

/-- `CacheSystem.set(key, value, ttl)` at time `now` (value is the boolean
marker `true` everywhere this cache is used). -/
def set (c : Cache) (key : String) (value : Bool) (ttl now : Nat) : Cache :=
  insertEntry c key { value := value, expirationTime := now + ttl, createdAt := now }

/-- `CacheSystem.get(key)` at time `now`: the stored value if present and
not expired (expired means `now > expirationTime`). -/
def get (c : Cache) (key : String) (now : Nat) : Option Bool :=
  match lookup c key with
  | none => none
  | some e => if now > e.expirationTime then none else some e.value

/-- `CacheSystem.has(key)`. -/
def has (c : Cache) (key : String) (now : Nat) : Bool :=
  get c key now ≠ none

/-- `CacheSystem.delete(key)`. -/
def deleteKey (c : Cache) (key : String) : Cache :=
  c.filter (fun p => p.1 ≠ key)

/-- `CacheSystem.performCleanup()` at time `now`: remove every entry past
its expiry. -/
def performCleanup (c : Cache) (now : Nat) : Cache :=
  c.filter (fun p => !(now > p.2.expirationTime))

/-- `CacheSystem.generateMessageKey(from, messageId)`. -/
def generateMessageKey (sender messageId : String) : String :=
  "msg_" ++ sender ++ "_" ++ messageId

/-- `CacheSystem.isMessageProcessed(from, messageId)` at time `now`. -/
def isMessageProcessed (c : Cache) (sender messageId : String) (now : Nat) : Bool :=
  has c (generateMessageKey sender messageId) now

/-- `CacheSystem.markMessageProcessed(from, messageId, ttl)` at time `now`. -/
def markMessageProcessed (c : Cache) (sender messageId : String)
    (ttl now : Nat) : Cache :=
  set c (generateMessageKey sender messageId) true ttl now

/-- `CacheSystem.clear()`. -/
def clear (_ : Cache) : Cache := []

end CacheSystem

/-! ## StateManager (session store and global toggle)

`this.state = {chatbot_is_on, bot_start_time, sessions, stats}` with
`sessions` a plain object mapping phone → session.  Object key order is
insertion order with in-place replacement, modelled as an association
list like the cache.  The `setTimeout` scheduled by `disableBot` is
recorded in `reenableTimers` (the JS code keeps no handle to it, so
nothing can cancel it); `fireDueTimers` runs every timer that has come
due — each callback sets `chatbot_is_on = true` unconditionally. -/

structure Stats where
  total_messages : Nat
  total_users : Nat
  last_reset : Nat
  deriving DecidableEq, Repr

structure HistEntry where
  flowFrom : String
  flowTo : String
  timestamp : Nat
  deriving DecidableEq, Repr

/-- The quote-intake sub-object `session.data.cotacao`; every field is
optional because the JS object grows one key per completed step. -/
structure Cotacao where
  nome : Option String := none
  email : Option String := none
  cpf : Option String := none
  tipo_seguro : Option String := none
  veiculo_marca : Option String := none
  veiculo_placa_chassi : Option String := none
  tipo_identificacao : Option String := none
  cep_pernoite : Option String := none
  deriving DecidableEq, Repr

/-- `session.data`: the free-form per-session data object.  The keys ever
written by this code base: `cotacao` (quote intake), `tipo_usuario`
(welcome response), `transferred_at`/`reason` (handoff).  `nome`/`email`
are read by `transferToHuman` (`session.data?.nome`) but never written;
they are kept for faithfulness of that read. -/
structure SessData where
  cotacao : Option Cotacao := none
  tipo_usuario : Option String := none
  transferred_at : Option Nat := none
  reason : Option String := none
  nome : Option String := none
  email : Option String := none
  deriving DecidableEq, Repr

def SessData.empty : SessData := {}

/-- `{...session.data.cotacao}` when `cotacao` may be `undefined`:
spreading `undefined` yields `{}`. -/
def spreadCot (c : Option Cotacao) : Cotacao := c.getD {}

structure Session where
  phone : String
  currentFlow : String
  currentStep : String
  data : SessData
  history : List HistEntry
  createdAt : Nat
  lastActivity : Nat
  deriving DecidableEq, Repr

/-- A partial update as passed to `updateUserSession` (only the keys this
code base ever passes: `currentFlow`, `currentStep`, `data`). -/
structure SessionUpdate where
  currentFlow : Option String := none
  currentStep : Option String := none
  data : Option SessData := none
  deriving DecidableEq, Repr

structure BotState where
  chatbot_is_on : Bool
  bot_start_time : Nat
  sessions : List (String × Session)
  stats : Stats
  reenableTimers : List Nat
  deriving DecidableEq, Repr

namespace StateManager

def lookupSession (sessions : List (String × Session)) (phone : String) :
    Option Session :=
  (sessions.find? (fun p => p.1 = phone)).map (·.2)

def insertSession (sessions : List (String × Session)) (phone : String)
    (s : Session) : List (String × Session) :=
  match sessions with
  | [] => [(phone, s)]
  | p :: rest =>
    if p.1 = phone then (phone, s) :: rest else p :: insertSession rest phone s

/-- The fresh session object built by `getUserSession` for an unseen
address. -/
def freshSession (phone : String) (now : Nat) : Session :=
  { phone := phone, currentFlow := "welcome", currentStep := "inicio",
    data := {}, history := [], createdAt := now, lastActivity := now }

/-- `StateManager.getUserSession(phone)` at time `now`: create with
defaults on first contact (incrementing the distinct-user counter), then
refresh `lastActivity` and return the session. -/
def getUserSession (st : BotState) (phone : String) (now : Nat) :
    Session × BotState :=
  let (s, st) :=
    match lookupSession st.sessions phone with
    | some s => (s, st)
    | none =>
      (freshSession phone now,
       { st with
          sessions := insertSession st.sessions phone (freshSession phone now),
          stats := { st.stats with total_users := st.stats.total_users + 1 } })
  let s := { s with lastActivity := now }
  (s, { st with sessions := insertSession st.sessions phone s })

/-- `StateManager.updateUserSession(phone, updates)` at time `now`: fetch
(or create) the session, append a history record when `updates.currentFlow`
is a (truthy) flow different from the current one, shallow-merge the
updates, refresh `lastActivity`, store back. -/
def updateUserSession (st : BotState) (phone : String) (u : SessionUpdate)
    (now : Nat) : BotState :=
  let pr := getUserSession st phone now
  let s := pr.1
  let st := pr.2
  let s :=
    match u.currentFlow with
    | some f =>
      if f ≠ "" && f ≠ s.currentFlow then
        { s with history := s.history ++
            [HistEntry.mk s.currentFlow f now] }
      else s
    | none => s
  let s := { s with
              currentFlow := u.currentFlow.getD s.currentFlow,
              currentStep := u.currentStep.getD s.currentStep,
              data := u.data.getD s.data,
              lastActivity := now }
  { st with sessions := insertSession st.sessions phone s }

/-- `StateManager.removeUserSession(phone)`. -/
def removeUserSession (st : BotState) (phone : String) : BotState :=
  { st with sessions := st.sessions.filter (fun p => p.1 ≠ phone) }

/-- `StateManager.incrementMessageCount()`. -/
def incrementMessageCount (st : BotState) : BotState :=
  { st with stats :=
      { st.stats with total_messages := st.stats.total_messages + 1 } }

/-- `StateManager.isBotActive()`. -/
def isBotActive (st : BotState) : Bool := st.chatbot_is_on

/-- `StateManager.enableBot()`: sets the flag; pending re-enable timers are
untouched (the code keeps no handle with which to cancel them). -/
def enableBot (st : BotState) : BotState :=
  { st with chatbot_is_on := true }

/-- `StateManager.disableBot(minutes)` at time `now`: clear the flag and
schedule an unconditional re-enable `minutes * 60 * 1000` ms later. -/
def disableBot (st : BotState) (minutes now : Nat) : BotState :=
  { st with chatbot_is_on := false,
            reenableTimers := st.reenableTimers ++ [now + minutes * 60 * 1000] }

/-- Run every `disableBot` re-enable timer that has come due by time `t`:
each callback sets `chatbot_is_on = true` unconditionally (it consults no
state). -/
def fireDueTimers (st : BotState) (t : Nat) : BotState :=
  if st.reenableTimers.any (fun d => d ≤ t) then
    { st with chatbot_is_on := true,
              reenableTimers := st.reenableTimers.filter (fun d => !(d ≤ t)) }
  else st

/-- `StateManager.cleanInactiveSessions(maxInactiveHours)` at time `now`. -/
def cleanInactiveSessions (st : BotState) (maxInactiveHours now : Nat) : BotState :=
  let cutoffTime := now - maxInactiveHours * 60 * 60 * 1000
  { st with sessions := st.sessions.filter (fun p => !(p.2.lastActivity < cutoffTime)) }

end StateManager

open StateManager CacheSystem

/-! ## Outbound traffic and collaborators

Outbound sends through `whatsappService` are collected as a trace.  The
spec treats menu-text rendering (`menuService`) and the transport client
as external collaborators, so a list-menu send carries the identity of the
menu being rendered and a text send carries its body (long bodies are
abbreviated to their identifying opening words; no routing decision reads
them back).  `sendText`/`sendListMessage` format the recipient through
`Utils.formatPhone` before handing it to the client; typing indicators
embedded in them are presentation-only and are not traced, but the explicit
`sendTyping` of the router and the `markAsRead` receipt are. -/

inductive Menu where
  | welcome | main | cotacao | renovacao | sinistro | seguradoras | finalization
  deriving DecidableEq, Repr

/-- The record pushed to the export collaborators (CSV / Google Sheets)
when a quote intake completes. -/
structure LeadRecord where
  nome : String
  email : String
  telefone : String
  cpf : String
  tipoSeguro : String
  veiculo : String
  cep : String
  observacoes : String
  whatsapp : String
  deriving DecidableEq, Repr

inductive OutMsg where
  | seen (messageId : String)
  | typing (dest : String)
  | text (dest : String) (body : String)
  | listMenu (dest : String) (menu : Menu)
  | brokerNotify (dest : String) (clientName clientContact reason : String)
  | exportCsv (lead : LeadRecord)
  | exportSheets (lead : LeadRecord)
  deriving DecidableEq, Repr

/-- Is the event a message delivered to a chat (a text, an option list, or
the operator notification)?  Read receipts and typing indicators are not
message sends. -/
def OutMsg.isSend : OutMsg → Bool
  | .text _ _ => true
  | .listMenu _ _ => true
  | .brokerNotify _ _ _ _ => true
  | _ => false

/-- The insurer directory entries (`require('../data/seguradoras.json')`,
a data file outside src/) and the operator number
(`process.env.BROKER_WHATSAPP || '5519995910737'`): configuration read by
the router, passed explicitly. -/
structure Seguradora where
  id : String
  nome : String
  deriving DecidableEq, Repr

structure Env where
  brokerNumber : String
  seguradoras : List Seguradora
  deriving DecidableEq, Repr

def defaultEnv : Env :=
  { brokerNumber := "5519995910737", seguradoras := [] }

def sendTextEv (dest body : String) : OutMsg := .text (formatPhone dest) body
def sendListEv (dest : String) (m : Menu) : OutMsg := .listMenu (formatPhone dest) m

/-- `menuService.getSeguradoraInfo(id)`: the rendered contact card of one
insurer (external templating collaborator; identified by the insurer id). -/
def getSeguradoraInfo (id : String) : String := "seguradora_info " ++ id

/-- `menuService.getExistingClientMessage()`. -/
def existingClientMessage : String := "Que bom ter voce de volta, cliente"

/-- The result of one handler invocation: the boolean success value, the
post-state, and the outbound trace in emission order. -/
def HRes := Bool × BotState × List OutMsg

/-- `str.replace(sub, '')` for a plain (nonempty) search string: drop the
first occurrence. -/
def replaceFirst (sub : List Char) : List Char → List Char
  | [] => []
  | c :: cs =>
    if sub.isPrefixOf (c :: cs) then (c :: cs).drop sub.length
    else c :: replaceFirst sub cs

/-- JS `a || b` on optional strings (`""` is falsy). -/
def strTruthy : Option String → Option String
  | some s => if s = "" then none else some s
  | none => none

def jsOrS (a b : Option String) : Option String :=
  match strTruthy a with
  | some s => some s
  | none => strTruthy b

/-- `/option_(\d+)/`: leftmost occurrence of `option_` followed by a
nonempty digit run, as a number. -/
def findOptionNum : List Char → Option Nat
  | [] => none
  | c :: cs =>
    if "option_".toList.isPrefixOf (c :: cs) then
      let run := ((c :: cs).drop 7).takeWhile isDigitCh
      if run ≠ [] then some (digitsToNat run) else findOptionNum cs
    else findOptionNum cs

namespace MainFlow

/-- The acknowledgment text sent to the originating user by
`transferToHuman`. -/
def transferAckText : String :=
  "Transferindo para Atendente Especializado; aguarde um corretor"

/-- `MainFlow.transferToHuman(from, reason)` (src/unnamed/part_007, lines
601-631): look the session up, compose the client card, notify the broker
address only, acknowledge the originating user, disable the bot for 60
minutes and move the session to the dedicated handoff flow. -/
def transferToHuman (env : Env) (now : Nat) (sender reason : String)
    (st : BotState) : HRes :=
  let pr := getUserSession st sender now
  let session := pr.1
  let st := pr.2
  let clientName :=
    (jsOrS (session.data.cotacao.bind (·.nome)) session.data.nome).getD
      "Não informado"
  let clientEmail :=
    (jsOrS (session.data.cotacao.bind (·.email)) session.data.email).getD ""
  let clientContact :=
    if clientEmail ≠ "" then clientEmail
    else String.mk (replaceFirst "@c.us".toList sender.toList)
  let notif := OutMsg.brokerNotify (formatPhone env.brokerNumber)
                 clientName clientContact reason
  let ack := sendTextEv sender transferAckText
  let st := disableBot st 60 now
  let st := updateUserSession st sender
              { currentFlow := some "atendimento",
                currentStep := some "transferido",
                data := some { SessData.empty with
                                transferred_at := some now,
                                reason := some reason } } now
  (true, st, [notif, ack])

/-- `MainFlow.sendWelcome(from)`. -/
def sendWelcome (now : Nat) (sender : String) (st : BotState) : HRes :=
  let st := updateUserSession st sender
              { currentFlow := some "welcome_response",
                currentStep := some "aguardando_escolha" } now
  (true, st, [sendListEv sender Menu.welcome])

/-- `MainFlow.sendMainMenu(from)`. -/
def sendMainMenu (sender : String) (st : BotState) : HRes :=
  (true, st, [sendListEv sender Menu.main])

/-- `MainFlow.sendRenovacaoMenu(from)`. -/
def sendRenovacaoMenu (sender : String) (st : BotState) : HRes :=
  (true, st, [sendListEv sender Menu.renovacao])

/-- `MainFlow.sendSinistroMenu(from)`. -/
def sendSinistroMenu (sender : String) (st : BotState) : HRes :=
  (true, st, [sendListEv sender Menu.sinistro])

/-- `MainFlow.sendSeguradorasMenu(from)`: also moves the session to the
insurer-selection step. -/
def sendSeguradorasMenu (now : Nat) (sender : String) (st : BotState) : HRes :=
  let st := updateUserSession st sender
              { currentFlow := some "seguradoras",
                currentStep := some "selecao_seguradora" } now
  (true, st, [sendListEv sender Menu.seguradoras])

/-- `MainFlow.handleInvalidOption(from)`. -/
def handleInvalidOption (sender : String) (st : BotState) : HRes :=
  (false, st, [sendTextEv sender "Opção não reconhecida; comandos uteis"])

/-- `MainFlow.handleFinalization(from, input, session)`. -/
def handleFinalization (now : Nat) (sender input : String) (st : BotState) : HRes :=
  let normalized := normalizeText input
  if strContains input "menu" || strContains input "option_1" ||
     strContains normalized "voltar" || strContains normalized "menu principal" ||
     extractOptionNumber input = some 1 then
    let st := updateUserSession st sender { currentFlow := some "main_menu" } now
    sendMainMenu sender st
  else if strContains input "encerrar" || strContains input "option_2" ||
          strContains normalized "encerrar" || strContains normalized "tchau" ||
          extractOptionNumber input = some 2 then
    let bye := sendTextEv sender "Conversa Encerrada; obrigado por entrar em contato"
    let st := updateUserSession st sender
                { currentFlow := some "welcome", currentStep := some "inicio",
                  data := some SessData.empty } now
    (true, st, [bye])
  else
    (true, st,
     [sendTextEv sender "Opção não reconhecida; escolha uma das opções abaixo",
      sendListEv sender Menu.finalization])

end MainFlow

/-! ## CotacaoFlow (quote intake, src/backend/src/flows/cotacaoFlow.js) -/

/-- `^[a-zA-ZÀ-ÿ\s]+$` character class (name validation). -/
def isNameChar (c : Char) : Bool :=
  ('a' ≤ c && c ≤ 'z') || ('A' ≤ c && c ≤ 'Z') ||
  (0xC0 ≤ c.toNat && c.toNat ≤ 0xFF) || isJsWs c

/-- `String.prototype.toLowerCase` on the ASCII/Latin-1 range. -/
def jsToLowerChar (c : Char) : Char :=
  if ('A' ≤ c && c ≤ 'Z') ||
     (0xC0 ≤ c.toNat && c.toNat ≤ 0xDE && c.toNat ≠ 0xD7) then
    Char.ofNat (c.toNat + 32)
  else c

def jsToLower (s : String) : String := String.mk (s.toList.map jsToLowerChar)

/-- `String.prototype.toUpperCase` on the ASCII range (applied after
stripping non-alphanumerics, so only ASCII remains). -/
def jsToUpperChar (c : Char) : Char :=
  if 'a' ≤ c && c ≤ 'z' then Char.ofNat (c.toNat - 32) else c

def isAsciiAlnum (c : Char) : Bool :=
  ('a' ≤ c && c ≤ 'z') || ('A' ≤ c && c ≤ 'Z') || ('0' ≤ c && c ≤ '9')

def isUpperAlpha (c : Char) : Bool := 'A' ≤ c && c ≤ 'Z'

/-- `^[A-Z]{3}[0-9]{4}$|^[A-Z]{3}[0-9][A-Z][0-9]{2}$` (license plate). -/
def isPlacaStr (l : List Char) : Bool :=
  match l with
  | [a, b, c, d, e, f, g] =>
    (isUpperAlpha a && isUpperAlpha b && isUpperAlpha c &&
     isDigitCh d && isDigitCh e && isDigitCh f && isDigitCh g) ||
    (isUpperAlpha a && isUpperAlpha b && isUpperAlpha c &&
     isDigitCh d && isUpperAlpha e && isDigitCh f && isDigitCh g)
  | _ => false

/-- `^[A-HJ-NPR-Z0-9]{17}$` (chassis: alphanumerics without I, O, Q). -/
def isChassiChar (c : Char) : Bool :=
  isDigitCh c ||
  (('A' ≤ c && c ≤ 'H') || ('J' ≤ c && c ≤ 'N') || c = 'P' || ('R' ≤ c && c ≤ 'Z'))

def isChassiStr (l : List Char) : Bool :=
  l.length = 17 && l.all isChassiChar

namespace CotacaoFlow

/-- `getTipoSeguroTexto(tipo)`. -/
def getTipoSeguroTexto (tipo : Option String) : String :=
  match tipo with
  | some "auto" => "Seguro Auto"
  | some "residencial" => "Seguro Residencial"
  | some "vida" => "Seguro de Vida"
  | some "empresarial" => "Seguro Empresarial"
  | some "outros" => "Outros Seguros"
  | _ => "Seguro"

/-- `formatCEP(cep)`: `12345678` → `12345-678`. -/
def formatCEP (cep : String) : String :=
  let l := cep.toList
  if l.length = 8 && l.all isDigitCh then
    String.mk (l.take 5) ++ "-" ++ String.mk (l.drop 5)
  else cep

/-- JS string interpolation of a possibly-undefined field. -/
def fld (o : Option String) : String := o.getD "undefined"

/-- `formatarObservacoes(cotacao)`. -/
def formatarObservacoes (c : Cotacao) : String :=
  let obs :=
    (match c.tipo_seguro with
     | some t => if t ≠ "" then ["Tipo: " ++ t] else []
     | none => []) ++
    (match c.veiculo_marca with
     | some m => if m ≠ "" && m ≠ "Não informado" then ["Marca: " ++ m] else []
     | none => []) ++
    (match c.veiculo_placa_chassi with
     | some p =>
       if p ≠ "" then
         [(if c.tipo_identificacao = some "placa" then "Placa: " else "Chassi: ") ++ p]
       else []
     | none => []) ++
    (match c.cep_pernoite with
     | some cep => if cep ≠ "" then ["CEP Pernoite: " ++ formatCEP cep] else []
     | none => [])
  String.intercalate " | " obs

/-- The record handed to the CSV and Google Sheets collaborators. -/
def leadOf (sender : String) (c : Cotacao) : LeadRecord :=
  { nome := fld c.nome, email := fld c.email,
    telefone := String.mk (sender.toList.filter isDigitCh),
    cpf := fld c.cpf,
    tipoSeguro := getTipoSeguroTexto c.tipo_seguro,
    veiculo := (jsOrS c.veiculo_marca none).getD "",
    cep := (jsOrS c.cep_pernoite none).getD "",
    observacoes := formatarObservacoes c,
    whatsapp := sender }

/-- The rendered quote summary (template of `mostrarResumo`). -/
def resumoText (c : Cotacao) : String :=
  "Resumo da Cotação: " ++ getTipoSeguroTexto c.tipo_seguro ++ " " ++
  fld c.nome ++ " " ++ fld c.email ++ " " ++ fld c.cpf

/-- `solicitarNome(from)`. -/
def solicitarNome (sender : String) (st : BotState) : HRes :=
  (true, st, [sendTextEv sender "Iniciando sua Cotação; digite seu nome completo"])

/-- `solicitarEmail(from)`. -/
def solicitarEmail (sender : String) (st : BotState) : HRes :=
  (true, st, [sendTextEv sender "Agora seu e-mail"])

/-- `solicitarCPF(from)`. -/
def solicitarCPF (sender : String) (st : BotState) : HRes :=
  (true, st, [sendTextEv sender "CPF: digite seu CPF com ou sem máscara"])

/-- `solicitarDadosVeiculo(from)`. -/
def solicitarDadosVeiculo (sender : String) (st : BotState) : HRes :=
  (true, st, [sendTextEv sender "Dados do Veículo; marca do seu carro"])

/-- The plate/chassis prompt text (sent from two call sites). -/
def placaPromptEv (sender : String) : OutMsg :=
  sendTextEv sender "Placa ou Chassi do Veículo"

/-- `CotacaoFlow.start(from)`: reset the collected data and go to the
collect-name step. -/
def start (now : Nat) (sender : String) (st : BotState) : HRes :=
  let st := updateUserSession st sender
              { currentFlow := some "cotacao", currentStep := some "coleta_nome",
                data := some { SessData.empty with cotacao := some {} } } now
  solicitarNome sender st

/-- `oferecerContinuacao(from)`. -/
def oferecerContinuacao (now : Nat) (sender : String) (st : BotState) : HRes :=
  let ev := sendTextEv sender "Dados recebidos; continuar ou falar com atendente"
  let st := updateUserSession st sender { currentStep := some "continuacao" } now
  (true, st, [ev])

/-- The back-keyword guard `input.includes('voltar') ||
normalized.includes('voltar') || utils.isRequestingBack(normalized)`. -/
def backGuard (input normalized : String) : Bool :=
  strContains input "voltar" || strContains normalized "voltar" ||
  isRequestingBack normalized

/-- `handleColetaNome(from, input, session)`. -/
def handleColetaNome (env : Env) (now : Nat) (sender input : String)
    (session : Session) (st : BotState) : HRes :=
  let normalized := normalizeText input
  if backGuard input normalized then
    let st := updateUserSession st sender { currentFlow := some "main_menu" } now
    MainFlow.sendMainMenu sender st
  else
    let nome := jsTrim input
    if nome.toList.length < 2 then
      (false, st, [sendTextEv sender "Nome muito curto; digite seu nome completo"])
    else if !(nome.toList.all isNameChar) then
      (false, st, [sendTextEv sender "Nome inválido; use apenas letras e espaços"])
    else
      let updatedData := { session.data with
        cotacao := some { spreadCot session.data.cotacao with nome := some nome } }
      let st := updateUserSession st sender
                  { currentStep := some "coleta_email", data := some updatedData } now
      solicitarEmail sender st

/-- `handleColetaEmail(from, input, session)`. -/
def handleColetaEmail (env : Env) (now : Nat) (sender input : String)
    (session : Session) (st : BotState) : HRes :=
  let normalized := normalizeText input
  if backGuard input normalized then
    let st := updateUserSession st sender { currentStep := some "coleta_nome" } now
    solicitarNome sender st
  else
    let email := jsToLower (jsTrim input)
    if !isValidEmail email then
      (false, st, [sendTextEv sender "Email inválido; digite um email válido"])
    else
      let updatedData := { session.data with
        cotacao := some { spreadCot session.data.cotacao with email := some email } }
      let st := updateUserSession st sender
                  { currentStep := some "continuacao", data := some updatedData } now
      oferecerContinuacao now sender st

/-- `handleContinuacao(from, input, session)`. -/
def handleContinuacao (env : Env) (now : Nat) (sender input : String)
    (session : Session) (st : BotState) : HRes :=
  let normalized := normalizeText input
  let optionNumber := extractOptionNumber input
  if backGuard input normalized then
    let st := updateUserSession st sender { currentStep := some "coleta_email" } now
    solicitarEmail sender st
  else if optionNumber = some 1 || strContains normalized "continuar" ||
          strContains normalized "informacoes" || strContains normalized "1" then
    let ev := sendTextEv sender "Continuando sua cotação; nome e e-mail já coletados"
    let st := updateUserSession st sender { currentStep := some "coleta_cpf" } now
    let r := solicitarCPF sender st
    (r.1, r.2.1, ev :: r.2.2)
  else if optionNumber = some 2 || strContains normalized "atendente" ||
          strContains normalized "corretor" || strContains normalized "2" then
    MainFlow.transferToHuman env now sender "Cotação - Solicitou atendente" st
  else
    (false, st, [sendTextEv sender "Opção não reconhecida; digite 1 ou 2"])

/-- `handleColetaCPF(from, input, session)`. -/
def handleColetaCPF (env : Env) (now : Nat) (sender input : String)
    (session : Session) (st : BotState) : HRes :=
  let normalized := normalizeText input
  if backGuard input normalized then
    let st := updateUserSession st sender { currentStep := some "continuacao" } now
    oferecerContinuacao now sender st
  else
    let inputOriginal := jsTrim input
    let cpfLimpo := String.mk (inputOriginal.toList.filter isDigitCh)
    if !isValidCPF inputOriginal then
      (false, st, [sendTextEv sender "CPF inválido; digite novamente"])
    else
      let updatedData := { session.data with
        cotacao := some { spreadCot session.data.cotacao with cpf := some cpfLimpo } }
      let st := updateUserSession st sender
                  { currentStep := some "tipo_seguro", data := some updatedData } now
      (true, st,
       [sendTextEv sender "CPF confirmado; que tipo de seguro deseja cotar",
        sendListEv sender Menu.cotacao])

/-- `mostrarResumo(from, session)`: render the summary, push the lead to
the CSV and Google Sheets collaborators, move the session to the shared
finalization flow and (two seconds later) offer the finalization menu. -/
def mostrarResumo (now : Nat) (sender : String) (session : Session)
    (st : BotState) : HRes :=
  let cotacao := spreadCot session.data.cotacao
  let lead := leadOf sender cotacao
  let st := updateUserSession st sender
              { currentStep := some "finalizado",
                currentFlow := some "finalization" } now
  (true, st,
   [sendTextEv sender (resumoText cotacao),
    OutMsg.exportCsv lead, OutMsg.exportSheets lead,
    sendTextEv sender "Cotação solicitada com sucesso",
    sendListEv sender Menu.finalization])

/-- `avancarParaProximoPasso(from, session)`. -/
def avancarParaProximoPasso (now : Nat) (sender : String) (session : Session)
    (st : BotState) : HRes :=
  match (spreadCot session.data.cotacao).tipo_seguro with
  | some "auto" =>
    let st := updateUserSession st sender { currentStep := some "dados_veiculo" } now
    solicitarDadosVeiculo sender st
  | _ =>
    let st := updateUserSession st sender { currentStep := some "resumo" } now
    mostrarResumo now sender session st

/-- `handleTipoSeguro(from, input, session)`. -/
def handleTipoSeguro (env : Env) (now : Nat) (sender input : String)
    (session : Session) (st : BotState) : HRes :=
  let normalized := normalizeText input
  if backGuard input normalized then
    let st := updateUserSession st sender { currentStep := some "coleta_cpf" } now
    solicitarCPF sender st
  else
    let tipo : Option String :=
      if strContains input "auto" || strContains normalized "auto" ||
         strContains normalized "veiculo" then some "auto"
      else if strContains input "residencial" || strContains normalized "casa" ||
              strContains normalized "residencia" then some "residencial"
      else if strContains input "vida" || strContains normalized "vida" then
        some "vida"
      else if strContains input "empresarial" || strContains normalized "empresa" then
        some "empresarial"
      else if strContains input "outros" || strContains normalized "outros" then
        some "outros"
      else none
    match tipo with
    | none =>
      (false, st, [sendTextEv sender "Tipo de seguro não reconhecido"])
    | some t =>
      let updatedData := { session.data with
        cotacao := some { spreadCot session.data.cotacao with tipo_seguro := some t } }
      let st := updateUserSession st sender { data := some updatedData } now
      avancarParaProximoPasso now sender { session with data := updatedData } st

/-- `handleDadosVeiculo(from, input, session)`. -/
def handleDadosVeiculo (env : Env) (now : Nat) (sender input : String)
    (session : Session) (st : BotState) : HRes :=
  let normalized := normalizeText input
  if backGuard input normalized then
    let st := updateUserSession st sender { currentStep := some "tipo_seguro" } now
    (true, st,
     [sendTextEv sender "Que tipo de seguro você deseja cotar?",
      sendListEv sender Menu.cotacao])
  else
    let input :=
      if strContains normalized "pular" || strContains normalized "sem marca" ||
         strContains normalized "nao sei" then "Não informado" else input
    let updatedData := { session.data with
      cotacao := some { spreadCot session.data.cotacao with
                          veiculo_marca := some (jsTrim input) } }
    let st := updateUserSession st sender
                { currentStep := some "coleta_placa_chassi",
                  data := some updatedData } now
    (true, st, [placaPromptEv sender])

/-- `handleColetaPlacaChassi(from, input, session)` (the source checks the
back keyword twice in a row, the first time passing the raw input to
`isRequestingBack`; both guards perform the same action). -/
def handleColetaPlacaChassi (env : Env) (now : Nat) (sender input : String)
    (session : Session) (st : BotState) : HRes :=
  let normalized := normalizeText input
  if backGuard input normalized || isRequestingBack input then
    let st := updateUserSession st sender { currentStep := some "dados_veiculo" } now
    solicitarDadosVeiculo sender st
  else
    let inputLimpo := (input.toList.filter isAsciiAlnum).map jsToUpperChar
    let isPlaca := isPlacaStr inputLimpo
    let isChassi := isChassiStr inputLimpo
    if !isPlaca && !isChassi then
      (false, st, [sendTextEv sender "Formato inválido; digite uma placa ou chassi válido"])
    else
      let updatedData := { session.data with
        cotacao := some { spreadCot session.data.cotacao with
                            veiculo_placa_chassi := some (String.mk inputLimpo),
                            tipo_identificacao :=
                              some (if isPlaca then "placa" else "chassi") } }
      let st := updateUserSession st sender
                  { currentStep := some "coleta_cep_pernoite",
                    data := some updatedData } now
      (true, st, [sendTextEv sender "CEP de Pernoite; qual o CEP onde o veículo fica guardado"])

/-- `handleColetaCepPernoite(from, input, session)`. -/
def handleColetaCepPernoite (env : Env) (now : Nat) (sender input : String)
    (session : Session) (st : BotState) : HRes :=
  let normalized := normalizeText input
  if backGuard input normalized then
    let st := updateUserSession st sender
                { currentStep := some "coleta_placa_chassi" } now
    (true, st, [placaPromptEv sender])
  else
    let cep := String.mk (input.toList.filter isDigitCh)
    if cep.toList.length ≠ 8 then
      (false, st, [sendTextEv sender "CEP inválido; digite um CEP válido com 8 dígitos"])
    else
      let updatedData := { session.data with
        cotacao := some { spreadCot session.data.cotacao with cep_pernoite := some cep } }
      let st := updateUserSession st sender
                  { currentStep := some "resumo", data := some updatedData } now
      mostrarResumo now sender { session with data := updatedData } st

/-- `handleResumo(from, input, session)`. -/
def handleResumo (env : Env) (now : Nat) (sender input : String)
    (session : Session) (st : BotState) : HRes :=
  mostrarResumo now sender session st

/-- `handleFinalizado(from, input, session)`: hand over to the shared
finalization flow of the router. -/
def handleFinalizado (env : Env) (now : Nat) (sender input : String)
    (session : Session) (st : BotState) : HRes :=
  let st := updateUserSession st sender { currentFlow := some "finalization" } now
  MainFlow.handleFinalization now sender input st

/-- `verificarDadosPendentes(cotacao)`. -/
def verificarDadosPendentes (c : Cotacao) : List String :=
  (if (jsOrS c.nome none).isNone then ["nome"] else []) ++
  (if (jsOrS c.email none).isNone then ["email"] else []) ++
  (if (jsOrS c.cpf none).isNone then ["cpf"] else [])

/-- `handleDadosIniciais(from, input, session)` (registered step
`dados_iniciais`; no current transition targets it). -/
def handleDadosIniciais (env : Env) (now : Nat) (sender input : String)
    (session : Session) (st : BotState) : HRes :=
  let pendentes := verificarDadosPendentes (spreadCot session.data.cotacao)
  if pendentes.contains "nome" then
    handleColetaNome env now sender input session st
  else if pendentes.contains "email" then
    handleColetaEmail env now sender input session st
  else
    oferecerContinuacao now sender st

/-- `CotacaoFlow.processInput(from, input)`: fetch the session, resolve the
current step against the step registry, dispatch; an unknown step restarts
the intake after an apology. -/
def processInput (env : Env) (now : Nat) (sender input : String)
    (st : BotState) : HRes :=
  let pr := getUserSession st sender now
  let session := pr.1
  let st := pr.2
  let currentStep := if session.currentStep = "" then "coleta_nome"
                     else session.currentStep
  match currentStep with
  | "tipo_seguro" => handleTipoSeguro env now sender input session st
  | "dados_iniciais" => handleDadosIniciais env now sender input session st
  | "coleta_nome" => handleColetaNome env now sender input session st
  | "coleta_email" => handleColetaEmail env now sender input session st
  | "continuacao" => handleContinuacao env now sender input session st
  | "coleta_cpf" => handleColetaCPF env now sender input session st
  | "dados_veiculo" => handleDadosVeiculo env now sender input session st
  | "coleta_placa_chassi" => handleColetaPlacaChassi env now sender input session st
  | "coleta_cep_pernoite" => handleColetaCepPernoite env now sender input session st
  | "resumo" => handleResumo env now sender input session st
  | "finalizado" => handleFinalizado env now sender input session st
  | _ =>
    let ev := sendTextEv sender "Ops, algo deu errado; vamos recomeçar sua cotação"
    let r := start now sender st
    (r.1, r.2.1, ev :: r.2.2)

end CotacaoFlow

/-! ## MainFlow (router, src/unnamed/part_007) -/

/-- An inbound transport event as consumed by
`whatsappService.extractMessageInfo`: `{id, from, body, type,
list_response?, button_response?}` (the two structured-reply payloads are
carried as their resolved ids). -/
structure WMessage where
  id : String
  sender : String
  body : String
  mtype : String := "text"
  listResponseId : Option String := none
  buttonResponseId : Option String := none
  deriving DecidableEq, Repr

/-- `whatsappService.processListResponse(message)`: a structured list or
button reply id, else `option_N` recovered from a leading number in the
text (`if (optionNumber)` is a truthiness test, so `0` yields no id). -/
def processListResponse (m : WMessage) : Option String :=
  if m.mtype = "list_response" && m.listResponseId.isSome then
    m.listResponseId
  else if m.mtype = "button_response" && m.buttonResponseId.isSome then
    m.buttonResponseId
  else if m.body ≠ "" then
    match extractOptionNumber m.body with
    | some n => if n ≠ 0 then some ("option_" ++ toString n) else none
    | none => none
  else none

namespace MainFlow

/-- `MainFlow.handleWelcome`. -/
def handleWelcome (env : Env) (now : Nat) (sender input : String)
    (session : Session) (st : BotState) : HRes :=
  sendWelcome now sender st

/-- `MainFlow.handleWelcomeResponse`. -/
def handleWelcomeResponse (env : Env) (now : Nat) (sender input : String)
    (session : Session) (st : BotState) : HRes :=
  let normalized := normalizeText input
  let optionNumber := extractOptionNumber input
  if strContains input "option_1" || strContains input "cliente" ||
     strContains normalized "cliente" || strContains normalized "ja sou cliente" ||
     optionNumber = some 1 then
    let st := updateUserSession st sender
                { currentFlow := some "main_menu",
                  currentStep := some "menu_principal",
                  data := some { session.data with tipo_usuario := some "cliente" } } now
    let ev := sendTextEv sender existingClientMessage
    let r := sendMainMenu sender st
    (r.1, r.2.1, ev :: r.2.2)
  else if strContains input "option_2" || strContains input "cotacao" ||
          strContains normalized "cotar" || strContains normalized "quero cotar" ||
          strContains normalized "cotacao" || optionNumber = some 2 then
    CotacaoFlow.start now sender st
  else
    (false, st, [sendTextEv sender "Opção não reconhecida; escolha uma das opções abaixo"])

/-- `MainFlow.handleMainMenu`. -/
def handleMainMenu (env : Env) (now : Nat) (sender input : String)
    (session : Session) (st : BotState) : HRes :=
  let normalized := normalizeText input
  if isRequestingBack normalized then
    sendWelcome now sender st
  else if strContains input "option_1" || strContains input "nova_cotacao" ||
          strContains normalized "nova cotacao" || strContains normalized "cotacao" ||
          strContains normalized "quero uma nova cotacao" ||
          extractOptionNumber input = some 1 then
    CotacaoFlow.start now sender st
  else if strContains input "option_2" || strContains input "renovacao" ||
          strContains normalized "renovacao" ||
          strContains normalized "informacoes sobre renovacao" ||
          extractOptionNumber input = some 2 then
    let st := updateUserSession st sender { currentFlow := some "renovacao" } now
    sendRenovacaoMenu sender st
  else if strContains input "option_3" || strContains input "sinistro" ||
          strContains normalized "sinistro" ||
          strContains normalized "comunicar sinistro" ||
          extractOptionNumber input = some 3 then
    let st := updateUserSession st sender { currentFlow := some "sinistro" } now
    sendSinistroMenu sender st
  else if strContains input "option_4" || strContains input "segunda_via" ||
          strContains normalized "segunda via" || strContains normalized "2a via" ||
          strContains normalized "documentos" || strContains normalized "boleto" ||
          extractOptionNumber input = some 4 then
    let ev := sendTextEv sender "2a Via de Documento ou Boleto; transferindo para um atendente"
    let r := transferToHuman env now sender "2ª Via de Documento/Boleto" st
    (r.1, r.2.1, ev :: r.2.2)
  else if strContains input "option_5" || strContains input "seguradoras" ||
          strContains normalized "seguradora" ||
          strContains normalized "contatos das seguradoras" ||
          extractOptionNumber input = some 5 then
    let st := updateUserSession st sender { currentFlow := some "seguradoras" } now
    sendSeguradorasMenu now sender st
  else if strContains input "option_6" || strContains input "atendimento" ||
          strContains normalized "atendente" ||
          strContains normalized "falar com atendente" ||
          extractOptionNumber input = some 6 then
    transferToHuman env now sender "Solicitação direta" st
  else
    handleInvalidOption sender st

/-- `MainFlow.handleRenovacao`. -/
def handleRenovacao (env : Env) (now : Nat) (sender input : String)
    (session : Session) (st : BotState) : HRes :=
  let normalized := normalizeText input
  if strContains input "voltar" || strContains normalized "voltar" ||
     isRequestingBack normalized then
    let st := updateUserSession st sender { currentFlow := some "main_menu" } now
    sendMainMenu sender st
  else if strContains input "contato" || strContains normalized "atendente" ||
          strContains normalized "corretor" then
    transferToHuman env now sender "Renovação de Apólice" st
  else
    transferToHuman env now sender "Renovação de Apólice" st

/-- Insurer selection shared by `handleSinistro` / `handleSeguradoras`:
an `option_N` tag (one-based, bounds-checked; a failed bounds check does
not fall through to the name search) or the first directory entry whose
id or lower-cased name occurs in the input. -/
def selectSeguradora (env : Env) (input normalized : String) : Option Seguradora :=
  match findOptionNum input.toList with
  | some n =>
    if 1 ≤ n && n ≤ env.seguradoras.length then env.seguradoras.get? (n - 1)
    else none
  | none =>
    env.seguradoras.find? (fun seg =>
      strContains input seg.id || strContains normalized (jsToLower seg.nome) ||
      strContains normalized seg.id)

/-- `MainFlow.handleSinistro`. -/
def handleSinistro (env : Env) (now : Nat) (sender input : String)
    (session : Session) (st : BotState) : HRes :=
  let normalized := normalizeText input
  if strContains input "voltar" || strContains normalized "voltar" ||
     isRequestingBack normalized then
    let st := updateUserSession st sender { currentFlow := some "main_menu" } now
    sendMainMenu sender st
  else
    match selectSeguradora env input normalized with
    | some seg =>
      let ev := sendTextEv sender (getSeguradoraInfo seg.id)
      let st := updateUserSession st sender
                  { currentFlow := some "finalization",
                    currentStep := some "menu_finalizacao" } now
      (true, st, [ev, sendListEv sender Menu.finalization])
    | none =>
      let ev := sendTextEv sender "Seguradora não reconhecida"
      let r := sendSinistroMenu sender st
      (r.1, r.2.1, ev :: r.2.2)

/-- `MainFlow.handleSeguradoras`. -/
def handleSeguradoras (env : Env) (now : Nat) (sender input : String)
    (session : Session) (st : BotState) : HRes :=
  let normalized := normalizeText input
  if strContains input "voltar" || strContains normalized "voltar" ||
     isRequestingBack normalized then
    let st := updateUserSession st sender { currentFlow := some "main_menu" } now
    sendMainMenu sender st
  else
    match selectSeguradora env input normalized with
    | some seg =>
      let ev := sendTextEv sender (getSeguradoraInfo seg.id)
      let st := updateUserSession st sender
                  { currentFlow := some "finalization",
                    currentStep := some "menu_finalizacao" } now
      (true, st, [ev, sendListEv sender Menu.finalization])
    | none =>
      let ev := sendTextEv sender "Opção não reconhecida; selecione uma seguradora da lista"
      let r := sendSeguradorasMenu now sender st
      (r.1, r.2.1, ev :: r.2.2)

/-- `MainFlow.handleSeguradoraInfo`. -/
def handleSeguradoraInfo (env : Env) (now : Nat) (sender input : String)
    (session : Session) (st : BotState) : HRes :=
  let st := updateUserSession st sender { currentFlow := some "seguradoras" } now
  sendSeguradorasMenu now sender st

/-- `MainFlow.handleAtendimento`. -/
def handleAtendimento (env : Env) (now : Nat) (sender input : String)
    (session : Session) (st : BotState) : HRes :=
  transferToHuman env now sender "Solicitação de atendimento" st

/-- `MainFlow.handleUnknownFlow(from)`: reset to the default flow, apologise,
reissue the welcome menu. -/
def handleUnknownFlow (now : Nat) (sender : String) (st : BotState) : HRes :=
  let st := updateUserSession st sender
              { currentFlow := some "welcome", currentStep := some "inicio",
                data := some SessData.empty } now
  let ev := sendTextEv sender "Reiniciando atendimento; houve um problema técnico"
  let r := sendWelcome now sender st
  (r.1, r.2.1, ev :: r.2.2)

/-- `MainFlow.handleGlobalCommands(from, body)`: fixed priority
interception — menu/reset command, greeting, farewell, human request —
before per-flow dispatch.  `some` means a command matched (each matched
branch reports success with the operational transport assumed ready). -/
def handleGlobalCommands (env : Env) (now : Nat) (sender body : String)
    (st : BotState) : Option (BotState × List OutMsg) :=
  let normalizedBody := normalizeText body
  if isMenuCommand normalizedBody then
    let st := enableBot st
    let st := updateUserSession st sender
                { currentFlow := some "welcome", currentStep := some "inicio",
                  data := some SessData.empty } now
    let r := sendWelcome now sender st
    some (r.2.1, r.2.2)
  else if isGreeting normalizedBody then
    let st := updateUserSession st sender
                { currentFlow := some "welcome", currentStep := some "inicio" } now
    let r := sendWelcome now sender st
    some (r.2.1, r.2.2)
  else if isFarewell normalizedBody then
    some (st, [sendTextEv sender "Obrigado por entrar em contato com a DJS Corretora"])
  else if isRequestingHuman normalizedBody then
    let r := transferToHuman env now sender "Solicitação de atendimento" st
    some (r.2.1, r.2.2)
  else none

/-- Flow-registry dispatch (`this.flows`, built once in
`initializeFlows`); an unregistered flow name falls to
`handleUnknownFlow`.  The `cotacao` handler delegates to
`CotacaoFlow.processInput`. -/
def dispatchFlow (env : Env) (now : Nat) (sender input currentFlow : String)
    (session : Session) (st : BotState) : HRes :=
  match currentFlow with
  | "welcome" => handleWelcome env now sender input session st
  | "welcome_response" => handleWelcomeResponse env now sender input session st
  | "main_menu" => handleMainMenu env now sender input session st
  | "cotacao" => CotacaoFlow.processInput env now sender input st
  | "renovacao" => handleRenovacao env now sender input session st
  | "sinistro" => handleSinistro env now sender input session st
  | "seguradoras" => handleSeguradoras env now sender input session st
  | "seguradora_info" => handleSeguradoraInfo env now sender input session st
  | "atendimento" => handleAtendimento env now sender input session st
  | "finalization" => handleFinalization now sender input st
  | _ => handleUnknownFlow now sender st

/-- Steps 2-7 of `MainFlow.processMessage` (everything after the dedup
guard and the dedup mark): mark read already emitted by the caller; count
the message; drop the event if the bot is disabled and the body is not an
allow-listed menu command; intercept global commands; otherwise resolve
the session's flow and dispatch (a typing indicator precedes dispatch). -/
def processAfterDedup (env : Env) (m : WMessage) (now : Nat)
    (st : BotState) : HRes :=
  let st := incrementMessageCount st
  if !isBotActive st && !isMenuCommand m.body then
    (false, st, [])
  else
    match handleGlobalCommands env now m.sender m.body st with
    | some (st, tr) => (true, st, tr)
    | none =>
      let pr := getUserSession st m.sender now
      let session := pr.1
      let st := pr.2
      let currentFlow := if session.currentFlow = "" then "welcome"
                         else session.currentFlow
      let userInput := match processListResponse m with
                       | some l => if l = "" then m.body else l
                       | none => m.body
      let r := dispatchFlow env now m.sender userInput currentFlow session st
      (r.1, r.2.1, OutMsg.typing (formatPhone m.sender) :: r.2.2)

/-- The full result of one router invocation. -/
structure PMResult where
  ok : Bool
  cache : Cache
  state : BotState
  out : List OutMsg
  deriving DecidableEq, Repr

/-- `MainFlow.processMessage(message)` at time `now`: dedup guard first
(a duplicate returns with nothing touched), then mark read, mark
processed with the default TTL, and run the rest of the pipeline.  The
dedup cache is written exactly once, here; no handler touches it. -/
def processMessage (env : Env) (m : WMessage) (now : Nat) (cache : Cache)
    (st : BotState) : PMResult :=
  if isMessageProcessed cache m.sender m.id now then
    { ok := false, cache := cache, state := st, out := [] }
  else
    let cache2 := markMessageProcessed cache m.sender m.id defaultTTL now
    let r := processAfterDedup env m now st
    { ok := r.1, cache := cache2, state := r.2.1, out := OutMsg.seen m.id :: r.2.2 }

end MainFlow

/-- The in-memory state a fresh start produces (the default object literal
of `StateManager.loadState` at time `now`, with no pending timers). -/
def freshState (now : Nat) : BotState :=
  { chatbot_is_on := true, bot_start_time := now, sessions := [],
    stats := { total_messages := 0, total_users := 0, last_reset := now },
    reenableTimers := [] }

/-- A concrete mid-intake scenario: a session at quote-intake step
`coleta_email` with the name already collected. -/
def mariaSession : Session :=
  { phone := "5519888888888@c.us", currentFlow := "cotacao",
    currentStep := "coleta_email",
    data := { SessData.empty with cotacao := some { nome := some "Maria Silva" } },
    history := [], createdAt := 0, lastActivity := 0 }

def mariaState : BotState :=
  { freshState 0 with sessions := [("5519888888888@c.us", mariaSession)] }

/-! ## The persisted document (StateManager.saveState / loadState)

`saveState` writes `JSON.stringify(this.state, null, 2)`;
`loadState` reads the file and returns `JSON.parse(data)` unvalidated,
falling back to a default object literal when the file is missing or
unparsable.  The JSON value space is embedded as `Json` (objects and their
key order as association lists; numbers restricted to integers — the
persisted document holds only integer timestamps and counters).
`renderJson` mirrors `JSON.stringify(·, null, 2)` including its two-space
indentation, and `jsonParse` models `JSON.parse` (whitespace-insensitive,
with string escapes; fractional/exponent number forms, which the document
never contains, are not modelled). -/

inductive Json where
  | null
  | bool (b : Bool)
  | num (i : Int)
  | str (s : String)
  | arr (elems : List Json)
  | obj (fields : List (String × Json))

/-- The brace characters, by code point. -/
def lbrace : Char := Char.ofNat 123

def rbrace : Char := Char.ofNat 125

def digitCh (d : Nat) : Char := Char.ofNat (48 + d)

/-- Decimal digits of `n`, most significant first (with fuel for
structural recursion; `fuel > n` suffices since `n / 10 < n`). -/
def natDigsAux : Nat → Nat → List Char
  | 0, _ => []
  | fuel + 1, n =>
    if n < 10 then [digitCh n]
    else natDigsAux fuel (n / 10) ++ [digitCh (n % 10)]

def natDigs (n : Nat) : List Char := natDigsAux (n + 1) n

/-- `JSON.stringify` of an integer `Number`. -/
def intDigs : Int → List Char
  | .ofNat n => natDigs n
  | .negSucc n => '-' :: natDigs (n + 1)

def hexDigitCh (n : Nat) : Char :=
  if n < 10 then Char.ofNat (48 + n) else Char.ofNat (87 + n)

/-- `JSON.stringify` string escaping: quote, backslash, the short control
escapes, `\u00XX` for other control characters, everything else raw. -/
def escChar (c : Char) : List Char :=
  if c = '"' then ['\\', '"']
  else if c = '\\' then ['\\', '\\']
  else if c = Char.ofNat 8 then ['\\', 'b']
  else if c = '\t' then ['\\', 't']
  else if c = '\n' then ['\\', 'n']
  else if c = Char.ofNat 12 then ['\\', 'f']
  else if c = '\r' then ['\\', 'r']
  else if c.toNat < 32 then
    ['\\', 'u', '0', '0', hexDigitCh (c.toNat / 16), hexDigitCh (c.toNat % 16)]
  else [c]

def escList : List Char → List Char
  | [] => []
  | c :: cs => escChar c ++ escList cs

/-- The 2-space-per-level indentation of `JSON.stringify(·, null, 2)`. -/
def indentChars (d : Nat) : List Char := List.replicate (2 * d) ' '

mutual

/-- `JSON.stringify(v, null, 2)` at nesting depth `d`. -/
def renderJson : Json → Nat → List Char
  | .null, _ => "null".toList
  | .bool true, _ => "true".toList
  | .bool false, _ => "false".toList
  | .num i, _ => intDigs i
  | .str s, _ => '"' :: (escList s.toList ++ ['"'])
  | .arr l, d => '[' :: arrTail l d
  | .obj l, d => lbrace :: objTail l d

/-- Everything after the opening `[`. -/
def arrTail : List Json → Nat → List Char
  | [], _ => [']']
  | x :: xs, d =>
    '\n' :: (renderItems (x :: xs) (d + 1) ++ '\n' :: (indentChars d ++ [']']))

def renderItems : List Json → Nat → List Char
  | [], _ => []
  | [x], d => indentChars d ++ renderJson x d
  | x :: xs, d =>
    indentChars d ++ (renderJson x d ++ ',' :: '\n' :: renderItems xs d)

/-- Everything after the opening brace. -/
def objTail : List (String × Json) → Nat → List Char
  | [], _ => [rbrace]
  | p :: ps, d =>
    '\n' :: (renderFields (p :: ps) (d + 1) ++ '\n' :: (indentChars d ++ [rbrace]))

def renderFields : List (String × Json) → Nat → List Char
  | [], _ => []
  | [(k, v)], d =>
    indentChars d ++
      ('"' :: (escList k.toList ++ '"' :: ':' :: ' ' :: renderJson v d))
  | (k, v) :: ps, d =>
    indentChars d ++
      ('"' :: (escList k.toList ++ '"' :: ':' :: ' ' :: renderJson v d)) ++
      ',' :: '\n' :: renderFields ps d

end

/-! ### The parser (model of `JSON.parse`) -/

def isJsonWs (c : Char) : Bool :=
  c = ' ' || c = '\t' || c = '\n' || c = '\r'

def skipJWs (l : List Char) : List Char := l.dropWhile isJsonWs

def unescape (e : Char) : Option Char :=
  if e = '"' then some '"'
  else if e = '\\' then some '\\'
  else if e = '/' then some '/'
  else if e = 'b' then some (Char.ofNat 8)
  else if e = 'f' then some (Char.ofNat 12)
  else if e = 'n' then some '\n'
  else if e = 'r' then some '\r'
  else if e = 't' then some '\t'
  else none

def parseHex (c : Char) : Option Nat :=
  if '0' ≤ c && c ≤ '9' then some (c.toNat - 48)
  else if 'a' ≤ c && c ≤ 'f' then some (c.toNat - 87)
  else if 'A' ≤ c && c ≤ 'F' then some (c.toNat - 55)
  else none

/-- The body of a string literal after the opening quote: the decoded
characters and the remainder after the closing quote. -/
def parseStrBody : List Char → Option (List Char × List Char)
  | [] => none
  | c :: cs =>
    if c = '"' then some ([], cs)
    else if c = '\\' then
      match cs with
      | [] => none
      | e :: cs2 =>
        if e = 'u' then
          match cs2 with
          | h1 :: h2 :: h3 :: h4 :: cs3 =>
            match parseHex h1, parseHex h2, parseHex h3, parseHex h4 with
            | some a, some b, some c3, some d4 =>
              (parseStrBody cs3).map
                (fun pr => (Char.ofNat (((a * 16 + b) * 16 + c3) * 16 + d4) :: pr.1, pr.2))
            | _, _, _, _ => none
          | _ => none
        else
          match unescape e with
          | some u => (parseStrBody cs2).map (fun pr => (u :: pr.1, pr.2))
          | none => none
    else if c.toNat < 32 then none
    else (parseStrBody cs).map (fun pr => (c :: pr.1, pr.2))

def parseNum (l : List Char) : Option (Int × List Char) :=
  if l.head? = some '-' then
    let run := (l.drop 1).takeWhile isDigitCh
    if run = [] then none
    else some (-(Int.ofNat (digitsToNat run)), (l.drop 1).drop run.length)
  else
    let run := l.takeWhile isDigitCh
    if run = [] then none
    else some (Int.ofNat (digitsToNat run), l.drop run.length)

mutual

def parseVal : Nat → List Char → Option (Json × List Char)
  | 0, _ => none
  | fuel + 1, l0 =>
    let l := skipJWs l0
    if "null".toList.isPrefixOf l then some (.null, l.drop 4)
    else if "true".toList.isPrefixOf l then some (.bool true, l.drop 4)
    else if "false".toList.isPrefixOf l then some (.bool false, l.drop 5)
    else if l.head? = some '"' then
      (parseStrBody (l.drop 1)).map (fun pr => (.str (String.mk pr.1), pr.2))
    else if l.head? = some '[' then
      (parseArrItems fuel (l.drop 1)).map (fun pr => (.arr pr.1, pr.2))
    else if l.head? = some lbrace then
      (parseObjItems fuel (l.drop 1)).map (fun pr => (.obj pr.1, pr.2))
    else
      (parseNum l).map (fun pr => (.num pr.1, pr.2))

def parseArrItems : Nat → List Char → Option (List Json × List Char)
  | 0, _ => none
  | fuel + 1, l0 =>
    let l := skipJWs l0
    if l.head? = some ']' then some ([], l.drop 1)
    else
      (parseVal fuel l).bind (fun pr =>
        let l2 := skipJWs pr.2
        if l2.head? = some ',' then
          (parseArrItems fuel (l2.drop 1)).map (fun qr => (pr.1 :: qr.1, qr.2))
        else if l2.head? = some ']' then some ([pr.1], l2.drop 1)
        else none)

def parseObjItems : Nat → List Char → Option (List (String × Json) × List Char)
  | 0, _ => none
  | fuel + 1, l0 =>
    let l := skipJWs l0
    if l.head? = some rbrace then some ([], l.drop 1)
    else if l.head? = some '"' then
      (parseStrBody (l.drop 1)).bind (fun kr =>
        let l2 := skipJWs kr.2
        if l2.head? = some ':' then
          (parseVal fuel (l2.drop 1)).bind (fun pr =>
            let l3 := skipJWs pr.2
            if l3.head? = some ',' then
              (parseObjItems fuel (l3.drop 1)).map
                (fun qr => ((String.mk kr.1, pr.1) :: qr.1, qr.2))
            else if l3.head? = some rbrace then
              some ([(String.mk kr.1, pr.1)], l3.drop 1)
            else none)
        else none)
    else none

end

/-- `JSON.parse`: a single value, possibly surrounded by whitespace. -/
def jsonParse (s : String) : Option Json :=
  match parseVal (s.toList.length + 2) s.toList with
  | some (j, rest) => if (skipJWs rest).isEmpty then some j else none
  | none => none

/-! ### The persisted layout (encoding from the source state shape;
decoding modelled from the spec) -/

/-- The serialized document's content: exactly the four keys of
`this.state` (`chatbot_is_on`, `bot_start_time`, `sessions`, `stats`);
the re-enable timers of the runtime model are process-local and are not
part of the persisted object. -/
structure PersistedState where
  chatbot_is_on : Bool
  bot_start_time : Nat
  sessions : List (String × Session)
  stats : Stats
  deriving DecidableEq, Repr

def BotState.persisted (st : BotState) : PersistedState :=
  { chatbot_is_on := st.chatbot_is_on, bot_start_time := st.bot_start_time,
    sessions := st.sessions, stats := st.stats }

/-- A JS object key present only when the field is set. -/
def optField (k : String) (f : α → Json) : Option α → List (String × Json)
  | some a => [(k, f a)]
  | none => []

def Json.getField : Json → String → Option Json
  | .obj fields, k => (fields.find? (fun p => p.1 = k)).map (·.2)
  | _, _ => none

def decodeStr : Json → Option String
  | .str s => some s
  | _ => none

def decodeBool : Json → Option Bool
  | .bool b => some b
  | _ => none

def decodeNat : Json → Option Nat
  | .num (.ofNat n) => some n
  | _ => none

def encodeHist (h : HistEntry) : Json :=
  .obj [("from", .str h.flowFrom), ("to", .str h.flowTo),
        ("timestamp", .num h.timestamp)]

def encodeCotacao (c : Cotacao) : Json :=
  .obj (optField "nome" .str c.nome ++
        optField "email" .str c.email ++
        optField "cpf" .str c.cpf ++
        optField "tipo_seguro" .str c.tipo_seguro ++
        optField "veiculo_marca" .str c.veiculo_marca ++
        optField "veiculo_placa_chassi" .str c.veiculo_placa_chassi ++
        optField "tipo_identificacao" .str c.tipo_identificacao ++
        optField "cep_pernoite" .str c.cep_pernoite)

def encodeSessData (d : SessData) : Json :=
  .obj (optField "cotacao" encodeCotacao d.cotacao ++
        optField "tipo_usuario" .str d.tipo_usuario ++
        optField "transferred_at" (fun n => .num n) d.transferred_at ++
        optField "reason" .str d.reason ++
        optField "nome" .str d.nome ++
        optField "email" .str d.email)

def encodeSession (s : Session) : Json :=
  .obj [("phone", .str s.phone),
        ("currentFlow", .str s.currentFlow),
        ("currentStep", .str s.currentStep),
        ("data", encodeSessData s.data),
        ("history", .arr (s.history.map encodeHist)),
        ("createdAt", .num s.createdAt),
        ("lastActivity", .num s.lastActivity)]

def encodeStats (s : Stats) : Json :=
  .obj [("total_messages", .num s.total_messages),
        ("total_users", .num s.total_users),
        ("last_reset", .num s.last_reset)]

/-- The persisted document of §6: the object `saveState` serializes. -/
def encodeState (p : PersistedState) : Json :=
  .obj [("chatbot_is_on", .bool p.chatbot_is_on),
        ("bot_start_time", .num p.bot_start_time),
        ("sessions", .obj (p.sessions.map (fun q => (q.1, encodeSession q.2)))),
        ("stats", encodeStats p.stats)]

/-- `JSON.stringify(this.state, null, 2)` — the exact file content
`saveState` writes. -/
def stringifyState (p : PersistedState) : String :=
  String.mk (renderJson (encodeState p) 0)

/-- Modelled from the spec: the JS side has no explicit decoder (the
`JSON.parse` result is installed as `this.state` directly), so reading the
§6 persisted-state layout back into the typed state follows the spec's
field list.  Decoding a history entry (`{from, to, timestamp}`). -/
def decodeHist (j : Json) : Option HistEntry := do
  let a ← (Json.getField j "from").bind decodeStr
  let b ← (Json.getField j "to").bind decodeStr
  let t ← (Json.getField j "timestamp").bind decodeNat
  pure { flowFrom := a, flowTo := b, timestamp := t }

def decodeList (g : Json → Option α) : List Json → Option (List α)
  | [] => some []
  | j :: js =>
    match g j with
    | some x => (decodeList g js).map (fun xs => x :: xs)
    | none => none

/-- Modelled from the spec: the quote-intake data sub-object. -/
def decodeCotacao (j : Json) : Option Cotacao :=
  match j with
  | .obj _ =>
    some { nome := (Json.getField j "nome").bind decodeStr,
           email := (Json.getField j "email").bind decodeStr,
           cpf := (Json.getField j "cpf").bind decodeStr,
           tipo_seguro := (Json.getField j "tipo_seguro").bind decodeStr,
           veiculo_marca := (Json.getField j "veiculo_marca").bind decodeStr,
           veiculo_placa_chassi :=
             (Json.getField j "veiculo_placa_chassi").bind decodeStr,
           tipo_identificacao :=
             (Json.getField j "tipo_identificacao").bind decodeStr,
           cep_pernoite := (Json.getField j "cep_pernoite").bind decodeStr }
  | _ => none

/-- Modelled from the spec: the free-form session `data` object. -/
def decodeSessData (j : Json) : Option SessData :=
  match j with
  | .obj _ =>
    some { cotacao := (Json.getField j "cotacao").bind decodeCotacao,
           tipo_usuario := (Json.getField j "tipo_usuario").bind decodeStr,
           transferred_at := (Json.getField j "transferred_at").bind decodeNat,
           reason := (Json.getField j "reason").bind decodeStr,
           nome := (Json.getField j "nome").bind decodeStr,
           email := (Json.getField j "email").bind decodeStr }
  | _ => none

/-- Modelled from the spec: one session record. -/
def decodeSession (j : Json) : Option Session := do
  let phone ← (Json.getField j "phone").bind decodeStr
  let currentFlow ← (Json.getField j "currentFlow").bind decodeStr
  let currentStep ← (Json.getField j "currentStep").bind decodeStr
  let data ← (Json.getField j "data").bind decodeSessData
  let history ←
    match Json.getField j "history" with
    | some (.arr items) => decodeList decodeHist items
    | _ => none
  let createdAt ← (Json.getField j "createdAt").bind decodeNat
  let lastActivity ← (Json.getField j "lastActivity").bind decodeNat
  pure { phone := phone, currentFlow := currentFlow, currentStep := currentStep,
         data := data, history := history, createdAt := createdAt,
         lastActivity := lastActivity }

def decodeSessions : List (String × Json) → Option (List (String × Session))
  | [] => some []
  | (k, j) :: ps =>
    match decodeSession j with
    | some s => (decodeSessions ps).map (fun rest => (k, s) :: rest)
    | none => none

/-- Modelled from the spec: the aggregate counters. -/
def decodeStats (j : Json) : Option Stats := do
  let m ← (Json.getField j "total_messages").bind decodeNat
  let u ← (Json.getField j "total_users").bind decodeNat
  let r ← (Json.getField j "last_reset").bind decodeNat
  pure { total_messages := m, total_users := u, last_reset := r }

/-- Modelled from the spec: §6 persisted-state layout — `botActive`,
`botStartTime`, the full session map, and the stats, read back from the
parsed document. -/
def decodeState (j : Json) : Option PersistedState := do
  let flag ← (Json.getField j "chatbot_is_on").bind decodeBool
  let start ← (Json.getField j "bot_start_time").bind decodeNat
  let sessions ←
    match Json.getField j "sessions" with
    | some (.obj fields) => decodeSessions fields
    | _ => none
  let stats ← (Json.getField j "stats").bind decodeStats
  pure { chatbot_is_on := flag, bot_start_time := start,
         sessions := sessions, stats := stats }

/-- The default object literal of `StateManager.loadState` at time
`now`. -/
def defaultPersisted (now : Nat) : PersistedState :=
  { chatbot_is_on := true, bot_start_time := now, sessions := [],
    stats := { total_messages := 0, total_users := 0, last_reset := now } }

def defaultStateJson (now : Nat) : Json := encodeState (defaultPersisted now)

/-- `StateManager.loadState()` at time `now`: the parsed document when
the file exists and parses (used unvalidated), else the default state.
`fileContent = none` stands for a missing file or a read error. -/
def loadState (fileContent : Option String) (now : Nat) : Json :=
  match fileContent with
  | some s =>
    match jsonParse s with
    | some j => j
    | none => defaultStateJson now
  | none => defaultStateJson now

mutual

/-- Fuel sufficient for `parseVal` to consume the rendering of `j`. -/
def fneed : Json → Nat
  | .null => 1
  | .bool _ => 1
  | .num _ => 1
  | .str _ => 1
  | .arr l => 1 + fneedArr l
  | .obj l => 1 + fneedObj l

def fneedArr : List Json → Nat
  | [] => 1
  | x :: xs => 1 + fneed x + fneedArr xs

def fneedObj : List (String × Json) → Nat
  | [] => 1
  | p :: ps => 1 + fneed p.2 + fneedObj ps

end

/-! ## Auxiliary lemmas shared by the claim theorems -/

/-! ### Codec round trip -/

theorem find?_optField (k k' : String) (f : α → Json) (a : Option α)
    (rest : List (String × Json)) :
    ((optField k f a ++ rest).find? (fun p => p.1 = k')) =
      if k = k' then
        (match a with
         | some x => some (k, f x)
         | none => rest.find? (fun p => p.1 = k'))
      else rest.find? (fun p => p.1 = k') := by
  cases a <;> by_cases h : k = k' <;> simp [optField, List.find?, h]

theorem find?_optField_single (k k' : String) (f : α → Json) (a : Option α) :
    ((optField k f a).find? (fun p => p.1 = k')) =
      if k = k' then a.map (fun x => (k, f x)) else none := by
  cases a <;> by_cases h : k = k' <;> simp [optField, List.find?, h]

theorem decodeCotacao_encodeCotacao (c : Cotacao) :
    decodeCotacao (encodeCotacao c) = some c := by
  obtain ⟨n, e, cp, ts, vm, vp, ti, cef⟩ := c
  simp only [decodeCotacao, encodeCotacao, Json.getField]
  refine congrArg some ?_
  congr 1 <;>
    simp only [List.append_assoc, find?_optField, find?_optField_single] <;>
    first
      | (cases n <;> rfl)
      | (cases e <;> rfl)
      | (cases cp <;> rfl)
      | (cases ts <;> rfl)
      | (cases vm <;> rfl)
      | (cases vp <;> rfl)
      | (cases ti <;> rfl)
      | (cases cef <;> rfl)

theorem decodeSessData_encodeSessData (d : SessData) :
    decodeSessData (encodeSessData d) = some d := by
  obtain ⟨co, tu, ta, re, n, e⟩ := d
  simp only [decodeSessData, encodeSessData, Json.getField]
  refine congrArg some ?_
  congr 1 <;>
    simp only [List.append_assoc, find?_optField, find?_optField_single] <;>
    first
      | (cases co <;> first | rfl | exact decodeCotacao_encodeCotacao _)
      | (cases tu <;> rfl)
      | (cases ta <;> rfl)
      | (cases re <;> rfl)
      | (cases n <;> rfl)
      | (cases e <;> rfl)

theorem decodeHist_encodeHist (h : HistEntry) :
    decodeHist (encodeHist h) = some h := by
  simp [decodeHist, encodeHist, Json.getField, List.find?, decodeStr, decodeNat]

theorem decodeList_map_roundtrip (g : Json → Option α) (f : α → Json)
    (h : ∀ x, g (f x) = some x) (l : List α) :
    decodeList g (l.map f) = some l := by
  induction l with
  | nil => rfl
  | cons x xs ih => simp [decodeList, h, ih]

theorem decodeSession_encodeSession (s : Session) :
    decodeSession (encodeSession s) = some s := by
  simp [decodeSession, encodeSession, Json.getField, List.find?, decodeStr,
    decodeNat, decodeSessData_encodeSessData,
    decodeList_map_roundtrip decodeHist encodeHist decodeHist_encodeHist]

theorem decodeSessions_roundtrip (l : List (String × Session)) :
    decodeSessions (l.map (fun q => (q.1, encodeSession q.2))) = some l := by
  induction l with
  | nil => rfl
  | cons p ps ih => simp [decodeSessions, decodeSession_encodeSession, ih]

theorem decodeStats_encodeStats (s : Stats) :
    decodeStats (encodeStats s) = some s := by
  simp [decodeStats, encodeStats, Json.getField, List.find?, decodeNat]

theorem decodeState_encodeState (p : PersistedState) :
    decodeState (encodeState p) = some p := by
  simp [decodeState, encodeState, Json.getField, List.find?, decodeBool,
    decodeNat, decodeSessions_roundtrip, decodeStats_encodeStats]

/-! ### Parser round trip: support lemmas -/

/-- The remainder that follows a rendered number never starts with a
digit (a comma, bracket, newline, or the end of input). -/
def notDigitHead (rest : List Char) : Prop :=
  ∀ c, rest.head? = some c → isDigitCh c = false

theorem notDigitHead_nil : notDigitHead [] := by
  intro c h
  simp at h

theorem notDigitHead_cons (c : Char) (l : List Char)
    (h : isDigitCh c = false) : notDigitHead (c :: l) := by
  intro c' h'
  simp at h'
  rwa [h'] at h

theorem digitVal_digitCh (d : Nat) (h : d < 10) : digitVal (digitCh d) = d := by
  unfold digitVal digitCh
  interval_cases d <;> rfl

theorem isDigitCh_digitCh (d : Nat) (h : d < 10) : isDigitCh (digitCh d) = true := by
  unfold isDigitCh digitCh
  interval_cases d <;> rfl

theorem digitsToNat_append (xs : List Char) (c : Char) :
    digitsToNat (xs ++ [c]) = 10 * digitsToNat xs + digitVal c := by
  simp [digitsToNat, List.foldl_append, Nat.mul_comm]

theorem natDigsAux_spec (fuel : Nat) : ∀ n, n < fuel →
    natDigsAux fuel n ≠ [] ∧ (∀ c ∈ natDigsAux fuel n, isDigitCh c = true) ∧
      digitsToNat (natDigsAux fuel n) = n := by
  induction fuel with
  | zero => intro n h; omega
  | succ fuel ih =>
    intro n h
    by_cases h10 : n < 10
    · refine ⟨by simp [natDigsAux, h10], ?_, ?_⟩
      · simp [natDigsAux, h10, isDigitCh_digitCh n h10]
      · simp [natDigsAux, h10, digitsToNat, digitVal_digitCh n h10]
    · have hdiv : n / 10 < fuel := by omega
      obtain ⟨hne, hdig, hval⟩ := ih (n / 10) hdiv
      refine ⟨by simp [natDigsAux, h10], ?_, ?_⟩
      · intro c hc
        simp only [natDigsAux, if_neg h10, List.mem_append, List.mem_singleton] at hc
        rcases hc with hc | hc
        · exact hdig c hc
        · rw [hc]; exact isDigitCh_digitCh _ (Nat.mod_lt _ (by omega))
      · simp only [natDigsAux, if_neg h10]
        rw [digitsToNat_append, hval, digitVal_digitCh _ (Nat.mod_lt _ (by omega))]
        omega

theorem natDigs_spec (n : Nat) :
    natDigs n ≠ [] ∧ (∀ c ∈ natDigs n, isDigitCh c = true) ∧
      digitsToNat (natDigs n) = n :=
  natDigsAux_spec (n + 1) n (Nat.lt_succ_self n)

theorem takeWhile_digits (ds rest : List Char)
    (hds : ∀ c ∈ ds, isDigitCh c = true) (hrest : notDigitHead rest) :
    (ds ++ rest).takeWhile isDigitCh = ds := by
  induction ds with
  | nil =>
    cases rest with
    | nil => rfl
    | cons c l => simp [List.takeWhile, hrest c rfl]
  | cons c cs ih =>
    have hc := hds c (by simp)
    simp only [List.cons_append, List.takeWhile_cons, hc, if_true]
    rw [ih (fun x hx => hds x (by simp [hx]))]

theorem parseNum_roundtrip (i : Int) (rest : List Char)
    (hrest : notDigitHead rest) :
    parseNum (intDigs i ++ rest) = some (i, rest) := by
  cases i with
  | ofNat n =>
    obtain ⟨hne, hdig, hval⟩ := natDigs_spec n
    obtain ⟨c, cs, hcons⟩ : ∃ c cs, natDigs n = c :: cs := by
      cases h : natDigs n with
      | nil => exact absurd h hne
      | cons a l => exact ⟨a, l, rfl⟩
    have hcd : isDigitCh c = true := hdig c (by rw [hcons]; simp)
    have hcm : c ≠ '-' := by
      intro hh
      rw [hh] at hcd
      simp [isDigitCh] at hcd
    unfold parseNum
    rw [show intDigs (Int.ofNat n) = natDigs n from rfl, hcons]
    simp only [List.cons_append, List.head?_cons]
    rw [if_neg (by simpa using hcm)]
    rw [← List.cons_append, ← hcons,
      takeWhile_digits (natDigs n) rest hdig hrest]
    rw [if_neg (by simpa using hne), hval]
    simp [List.drop_left]
  | negSucc n =>
    obtain ⟨hne, hdig, hval⟩ := natDigs_spec (n + 1)
    unfold parseNum
    rw [show intDigs (Int.negSucc n) ++ rest =
          '-' :: (natDigs (n + 1) ++ rest) from rfl]
    rw [if_pos (show ('-' :: (natDigs (n + 1) ++ rest)).head? = some '-' from rfl)]
    simp only [List.drop_succ_cons, List.drop_zero]
    rw [takeWhile_digits (natDigs (n + 1)) rest hdig hrest]
    rw [if_neg (by simpa using hne), hval]
    simp [List.drop_left, Int.negSucc_eq]

theorem skipJWs_cons_not_ws (c : Char) (l : List Char)
    (h : isJsonWs c = false) : skipJWs (c :: l) = c :: l := by
  simp [skipJWs, List.dropWhile, h]

theorem skipJWs_ws_drop (pre : List Char)
    (hpre : ∀ c ∈ pre, isJsonWs c = true) (l : List Char) :
    skipJWs (pre ++ l) = skipJWs l := by
  induction pre with
  | nil => rfl
  | cons c cs ih =>
    simp only [List.cons_append, skipJWs, List.dropWhile, hpre c (by simp)]
    exact ih (fun x hx => hpre x (by simp [hx]))

theorem indentChars_ws (d : Nat) : ∀ c ∈ indentChars d, isJsonWs c = true := by
  intro c hc
  rw [List.eq_of_mem_replicate hc]
  rfl

theorem hexDigitCh_parseHex (v : Nat) (h : v < 16) :
    parseHex (hexDigitCh v) = some v := by
  unfold parseHex hexDigitCh
  interval_cases v <;> rfl

theorem parseStrBody_escList (s : List Char) (rest : List Char) :
    parseStrBody (escList s ++ '"' :: rest) = some (s, rest) := by
  induction s with
  | nil =>
    show parseStrBody ('"' :: rest) = some ([], rest)
    unfold parseStrBody
    simp
  | cons c cs ih =>
    show parseStrBody ((escChar c ++ escList cs) ++ '"' :: rest) = _
    rw [List.append_assoc]
    unfold escChar
    by_cases h1 : c = '"'
    · subst h1
      rw [if_pos rfl]
      show parseStrBody ('\\' :: '"' :: (escList cs ++ '"' :: rest)) = _
      unfold parseStrBody
      simp [unescape, ih]
    · rw [if_neg h1]
      by_cases h2 : c = '\\'
      · subst h2
        rw [if_pos rfl]
        show parseStrBody ('\\' :: '\\' :: (escList cs ++ '"' :: rest)) = _
        unfold parseStrBody
        simp [unescape, ih]
      · rw [if_neg h2]
        by_cases h3 : c = Char.ofNat 8
        · subst h3
          rw [if_pos rfl]
          show parseStrBody ('\\' :: 'b' :: (escList cs ++ '"' :: rest)) = _
          unfold parseStrBody
          simp [unescape, ih]
        · rw [if_neg h3]
          by_cases h4 : c = '\t'
          · subst h4
            rw [if_pos rfl]
            show parseStrBody ('\\' :: 't' :: (escList cs ++ '"' :: rest)) = _
            unfold parseStrBody
            simp [unescape, ih]
          · rw [if_neg h4]
            by_cases h5 : c = '\n'
            · subst h5
              rw [if_pos rfl]
              show parseStrBody ('\\' :: 'n' :: (escList cs ++ '"' :: rest)) = _
              unfold parseStrBody
              simp [unescape, ih]
            · rw [if_neg h5]
              by_cases h6 : c = Char.ofNat 12
              · subst h6
                rw [if_pos rfl]
                show parseStrBody ('\\' :: 'f' :: (escList cs ++ '"' :: rest)) = _
                unfold parseStrBody
                simp [unescape, ih]
              · rw [if_neg h6]
                by_cases h7 : c = '\r'
                · subst h7
                  rw [if_pos rfl]
                  show parseStrBody ('\\' :: 'r' :: (escList cs ++ '"' :: rest)) = _
                  unfold parseStrBody
                  simp [unescape, ih]
                · rw [if_neg h7]
                  by_cases h8 : c.toNat < 32
                  · rw [if_pos h8]
                    show parseStrBody
                        ('\\' :: 'u' :: '0' :: '0' ::
                          hexDigitCh (c.toNat / 16) :: hexDigitCh (c.toNat % 16) ::
                          (escList cs ++ '"' :: rest)) = _
                    have hv : c.toNat / 16 * 16 + c.toNat % 16 = c.toNat := by omega
                    have hx0 : parseHex '0' = some 0 := rfl
                    have hx1 : parseHex (hexDigitCh (c.toNat / 16)) =
                        some (c.toNat / 16) := hexDigitCh_parseHex _ (by omega)
                    have hx2 : parseHex (hexDigitCh (c.toNat % 16)) =
                        some (c.toNat % 16) := hexDigitCh_parseHex _ (by omega)
                    unfold parseStrBody
                    simp [hx0, hx1, hx2, ih, hv, Char.ofNat_toNat]
                  · rw [if_neg h8]
                    show parseStrBody (c :: (escList cs ++ '"' :: rest)) = _
                    unfold parseStrBody
                    simp [ih, h1, h2, h8]




theorem fneed_pos (j : Json) : 1 ≤ fneed j := by
  cases j <;> simp [fneed]

theorem fneedArr_pos (l : List Json) : 1 ≤ fneedArr l := by
  cases l <;> simp [fneedArr] <;> omega

theorem fneedObj_pos (ps : List (String × Json)) : 1 ≤ fneedObj ps := by
  cases ps <;> simp [fneedObj] <;> omega

theorem isDigitCh_ne (c x : Char) (h : isDigitCh c = true)
    (hx : isDigitCh x = false) : c ≠ x := by
  intro he
  rw [he, hx] at h
  exact Bool.noConfusion h

theorem isDigitCh_not_ws (c : Char) (h : isDigitCh c = true) :
    isJsonWs c = false := by
  have h1 := isDigitCh_ne c ' ' h (by decide)
  have h2 := isDigitCh_ne c '\t' h (by decide)
  have h3 := isDigitCh_ne c '\n' h (by decide)
  have h4 := isDigitCh_ne c '\r' h (by decide)
  simp [isJsonWs, h1, h2, h3, h4]

theorem intDigs_head (i : Int) :
    ∃ c cs, intDigs i = c :: cs ∧ (isDigitCh c = true ∨ c = '-') := by
  cases i with
  | ofNat n =>
    obtain ⟨hne, hdig, -⟩ := natDigs_spec n
    cases h : natDigs n with
    | nil => exact absurd h hne
    | cons a l =>
      exact ⟨a, l, h, Or.inl (hdig a (by rw [h]; simp))⟩
  | negSucc n => exact ⟨'-', natDigs (n + 1), rfl, Or.inr rfl⟩

theorem renderJson_null (d : Nat) :
    renderJson Json.null d = ['n', 'u', 'l', 'l'] := by
  simp [renderJson]

theorem renderJson_true (d : Nat) :
    renderJson (Json.bool true) d = ['t', 'r', 'u', 'e'] := by
  simp [renderJson]

theorem renderJson_false (d : Nat) :
    renderJson (Json.bool false) d = ['f', 'a', 'l', 's', 'e'] := by
  simp [renderJson]

theorem renderJson_num (i : Int) (d : Nat) :
    renderJson (Json.num i) d = intDigs i := by
  simp [renderJson]

theorem renderJson_str (s : String) (d : Nat) :
    renderJson (Json.str s) d = '"' :: (escList s.toList ++ ['"']) := by
  simp [renderJson]

theorem renderJson_arr (l : List Json) (d : Nat) :
    renderJson (Json.arr l) d = '[' :: arrTail l d := by
  simp [renderJson]

theorem renderJson_obj (l : List (String × Json)) (d : Nat) :
    renderJson (Json.obj l) d = lbrace :: objTail l d := by
  simp [renderJson]

theorem arrTail_nil (d : Nat) : arrTail [] d = [']'] := by
  simp [arrTail]

theorem arrTail_cons (x : Json) (xs : List Json) (d : Nat) :
    arrTail (x :: xs) d =
      '\n' :: (renderItems (x :: xs) (d + 1) ++ '\n' :: (indentChars d ++ [']'])) := by
  simp [arrTail]

theorem renderItems_single (x : Json) (d : Nat) :
    renderItems [x] d = indentChars d ++ renderJson x d := by
  simp [renderItems]

theorem renderItems_cons (x y : Json) (ys : List Json) (d : Nat) :
    renderItems (x :: y :: ys) d =
      indentChars d ++ (renderJson x d ++ ',' :: '\n' :: renderItems (y :: ys) d) := by
  simp [renderItems]

theorem objTail_nil (d : Nat) : objTail [] d = [rbrace] := by
  simp [objTail]

theorem objTail_cons (p : String × Json) (ps : List (String × Json)) (d : Nat) :
    objTail (p :: ps) d =
      '\n' :: (renderFields (p :: ps) (d + 1) ++ '\n' :: (indentChars d ++ [rbrace])) := by
  simp [objTail]

theorem renderFields_single (k : String) (v : Json) (d : Nat) :
    renderFields [(k, v)] d =
      indentChars d ++
        ('"' :: (escList k.toList ++ '"' :: ':' :: ' ' :: renderJson v d)) := by
  simp [renderFields]

theorem renderFields_cons (k : String) (v : Json) (q : String × Json)
    (qs : List (String × Json)) (d : Nat) :
    renderFields ((k, v) :: q :: qs) d =
      indentChars d ++
        ('"' :: (escList k.toList ++ '"' :: ':' :: ' ' :: renderJson v d)) ++
      ',' :: '\n' :: renderFields (q :: qs) d := by
  simp [renderFields]

theorem renderJson_head (j : Json) (d : Nat) :
    ∃ c cs, renderJson j d = c :: cs ∧ isJsonWs c = false ∧ c ≠ ']' := by
  cases j with
  | null => exact ⟨'n', ['u', 'l', 'l'], renderJson_null d, by decide, by decide⟩
  | bool b =>
    cases b with
    | true => exact ⟨'t', ['r', 'u', 'e'], renderJson_true d, by decide, by decide⟩
    | false =>
      exact ⟨'f', ['a', 'l', 's', 'e'], renderJson_false d, by decide, by decide⟩
  | num i =>
    obtain ⟨c, cs, hc, hd⟩ := intDigs_head i
    refine ⟨c, cs, by rw [renderJson_num, hc], ?_, ?_⟩
    · rcases hd with hd | hd
      · exact isDigitCh_not_ws c hd
      · rw [hd]; rfl
    · rcases hd with hd | hd
      · exact isDigitCh_ne c ']' hd (by decide)
      · rw [hd]; decide
  | str s =>
    exact ⟨'"', escList s.toList ++ ['"'], renderJson_str s d, by decide, by decide⟩
  | arr l => exact ⟨'[', arrTail l d, renderJson_arr l d, by decide, by decide⟩
  | obj l => exact ⟨lbrace, objTail l d, renderJson_obj l d, by decide, by decide⟩

theorem parseVal_ws_drop (f : Nat) (pre l : List Char)
    (hpre : ∀ c ∈ pre, isJsonWs c = true) :
    parseVal f (pre ++ l) = parseVal f l := by
  cases f with
  | zero => rfl
  | succ f =>
    unfold parseVal
    rw [skipJWs_ws_drop pre hpre]

theorem skipJWs_nl_indent (k : Nat) (X : List Char) :
    skipJWs ('\n' :: (indentChars k ++ X)) = skipJWs X := by
  have h : ('\n' :: (indentChars k ++ X)) = ('\n' :: indentChars k) ++ X := rfl
  rw [h, skipJWs_ws_drop]
  intro c hc
  rcases List.mem_cons.mp hc with h | h
  · rw [h]; rfl
  · exact indentChars_ws k c h



theorem cons_not_prefixOf (a c : Char) (h : a ≠ c) (as l : List Char) :
    (a :: as).isPrefixOf (c :: l) = false := by
  show (a == c && as.isPrefixOf l) = false
  rw [beq_eq_false_iff_ne.mpr h, Bool.false_and]

theorem null_toList : "null".toList = ['n', 'u', 'l', 'l'] := rfl

theorem true_toList : "true".toList = ['t', 'r', 'u', 'e'] := rfl

theorem false_toList : "false".toList = ['f', 'a', 'l', 's', 'e'] := rfl

mutual

theorem parseVal_render (j : Json) (d f : Nat) (rest : List Char)
    (hf : fneed j ≤ f) (hrest : notDigitHead rest) :
    parseVal f (renderJson j d ++ rest) = some (j, rest) := by
  cases f with
  | zero => exact absurd hf (by have := fneed_pos j; omega)
  | succ f' =>
    cases j with
    | null =>
      rw [renderJson_null]
      unfold parseVal
      simp [skipJWs, List.dropWhile_cons, isJsonWs, null_toList, List.cons_prefix_cons]
    | bool b =>
      cases b with
      | true =>
        rw [renderJson_true]
        unfold parseVal
        simp [skipJWs, List.dropWhile_cons, isJsonWs, null_toList, true_toList, List.cons_prefix_cons]
      | false =>
        rw [renderJson_false]
        unfold parseVal
        simp [skipJWs, List.dropWhile_cons, isJsonWs, null_toList, true_toList, false_toList, List.cons_prefix_cons]
    | num i =>
      obtain ⟨c, cs, hc, hd⟩ := intDigs_head i
      have hdnws : isJsonWs c = false := by
        rcases hd with hd | hd
        · exact isDigitCh_not_ws c hd
        · rw [hd]; rfl
      have hne : c ≠ 'n' ∧ c ≠ 't' ∧ c ≠ 'f' ∧ c ≠ '"' ∧ c ≠ '[' ∧ c ≠ lbrace := by
        rcases hd with hd | hd
        · exact ⟨isDigitCh_ne c 'n' hd (by decide), isDigitCh_ne c 't' hd (by decide),
            isDigitCh_ne c 'f' hd (by decide), isDigitCh_ne c '"' hd (by decide),
            isDigitCh_ne c '[' hd (by decide), isDigitCh_ne c lbrace hd (by decide)⟩
        · rw [hd]; exact ⟨by decide, by decide, by decide, by decide, by decide, by decide⟩
      obtain ⟨hn, ht, hf2, hq, hb, hbr⟩ := hne
      rw [renderJson_num, hc, List.cons_append]
      unfold parseVal
      simp only [skipJWs_cons_not_ws _ _ hdnws, null_toList, true_toList, false_toList,
        cons_not_prefixOf 'n' c (Ne.symm hn), cons_not_prefixOf 't' c (Ne.symm ht),
        cons_not_prefixOf 'f' c (Ne.symm hf2), Bool.false_eq_true, if_false,
        List.head?_cons, Option.some.injEq, hq, hb, hbr]
      rw [← List.cons_append, ← hc, parseNum_roundtrip i rest hrest]
      rfl
    | str s =>
      rw [renderJson_str, List.cons_append]
      show (parseStrBody ((escList s.toList ++ ['"']) ++ rest)).map
          (fun pr => (Json.str (String.mk pr.1), pr.2)) = some (.str s, rest)
      rw [List.append_assoc, List.singleton_append, parseStrBody_escList]
      rfl
    | arr l =>
      have hfa : fneedArr l ≤ f' := by simp [fneed] at hf; omega
      rw [renderJson_arr, List.cons_append]
      show (parseArrItems f' (arrTail l d ++ rest)).map
          (fun pr => (Json.arr pr.1, pr.2)) = some (.arr l, rest)
      rw [parseArr_render l d f' rest hfa]
      rfl
    | obj l =>
      have hfo : fneedObj l ≤ f' := by simp [fneed] at hf; omega
      rw [renderJson_obj, List.cons_append]
      show (parseObjItems f' (objTail l d ++ rest)).map
          (fun pr => (Json.obj pr.1, pr.2)) = some (.obj l, rest)
      rw [parseObj_render l d f' rest hfo]
      rfl

theorem parseArr_render (l : List Json) (d f : Nat) (rest : List Char)
    (hf : fneedArr l ≤ f) :
    parseArrItems f (arrTail l d ++ rest) = some (l, rest) := by
  cases f with
  | zero => exact absurd hf (by have := fneedArr_pos l; omega)
  | succ f' =>
    cases l with
    | nil =>
      rw [arrTail_nil]
      rfl
    | cons x xs =>
      have hfx : fneed x ≤ f' := by
        have := fneedArr_pos xs; simp [fneedArr] at hf; omega
      obtain ⟨c, cs, hcons, hcws, hcnb⟩ := renderJson_head x (d + 1)
      cases xs with
      | nil =>
        rw [arrTail_cons, renderItems_single]
        simp only [List.cons_append, List.append_assoc, List.singleton_append, List.nil_append]
        unfold parseArrItems
        simp only [skipJWs_nl_indent, hcons, List.cons_append, List.nil_append,
          skipJWs_cons_not_ws _ _ hcws, List.head?_cons, Option.some.injEq, hcnb,
          if_false]
        rw [← List.cons_append, ← hcons,
          parseVal_render x (d + 1) f' _ hfx (notDigitHead_cons _ _ (by decide))]
        have hrb : skipJWs (']' :: rest) = ']' :: rest :=
          skipJWs_cons_not_ws _ _ (by decide)
        simp [skipJWs_nl_indent, hrb]
      | cons y ys =>
        have hfys : fneedArr (y :: ys) ≤ f' := by
          have := fneed_pos x; simp [fneedArr] at hf ⊢; omega
        rw [arrTail_cons, renderItems_cons]
        simp only [List.cons_append, List.append_assoc, List.singleton_append, List.nil_append]
        unfold parseArrItems
        simp only [skipJWs_nl_indent, hcons, List.cons_append, List.nil_append,
          skipJWs_cons_not_ws _ _ hcws, List.head?_cons, Option.some.injEq, hcnb,
          if_false]
        rw [← List.cons_append, ← hcons,
          parseVal_render x (d + 1) f' _ hfx (notDigitHead_cons _ _ (by decide))]
        have hcomma : skipJWs (',' :: ('\n' :: (renderItems (y :: ys) (d + 1) ++
            '\n' :: (indentChars d ++ (']' :: rest))))) =
            ',' :: ('\n' :: (renderItems (y :: ys) (d + 1) ++
            '\n' :: (indentChars d ++ (']' :: rest)))) :=
          skipJWs_cons_not_ws _ _ (by decide)
        have harr : arrTail (y :: ys) d ++ rest =
            '\n' :: (renderItems (y :: ys) (d + 1) ++
              '\n' :: (indentChars d ++ (']' :: rest))) := by
          rw [arrTail_cons]
          simp [List.cons_append, List.append_assoc, List.singleton_append, List.nil_append]
        simp only [Option.bind, hcomma, List.head?_cons, Option.some.injEq,
          List.drop_succ_cons, List.drop_zero, List.nil_append]
        simp only [eq_self_iff_true, if_true]
        rw [← harr, parseArr_render (y :: ys) d f' rest hfys]
        rfl

theorem parseObj_render (l : List (String × Json)) (d f : Nat) (rest : List Char)
    (hf : fneedObj l ≤ f) :
    parseObjItems f (objTail l d ++ rest) = some (l, rest) := by
  cases f with
  | zero => exact absurd hf (by have := fneedObj_pos l; omega)
  | succ f' =>
    cases l with
    | nil =>
      rw [objTail_nil]
      rfl
    | cons x ps =>
      obtain ⟨k, v⟩ := x
      have hfv : fneed v ≤ f' := by
        have := fneedObj_pos ps; simp [fneedObj] at hf; omega
      cases ps with
      | nil =>
        rw [objTail_cons, renderFields_single]
        simp only [List.cons_append, List.append_assoc, List.singleton_append, List.nil_append]
        unfold parseObjItems
        have hq : skipJWs ('"' :: (escList k.toList ++
            ('"' :: (':' :: (' ' :: (renderJson v (d + 1) ++
              '\n' :: (indentChars d ++ (rbrace :: rest)))))))) =
            '"' :: (escList k.toList ++
            ('"' :: (':' :: (' ' :: (renderJson v (d + 1) ++
              '\n' :: (indentChars d ++ (rbrace :: rest))))))) :=
          skipJWs_cons_not_ws _ _ (by decide)
        simp only [skipJWs_nl_indent, hq, List.head?_cons, Option.some.injEq,
          List.drop_succ_cons, List.drop_zero, List.nil_append,
          eq_false (show ¬('"' = rbrace) from by decide), if_false]
        simp only [eq_self_iff_true, if_true, List.drop_succ_cons, List.drop_zero]
        rw [parseStrBody_escList]
        have hcol : skipJWs (':' :: (' ' :: (renderJson v (d + 1) ++
            '\n' :: (indentChars d ++ (rbrace :: rest))))) =
            ':' :: (' ' :: (renderJson v (d + 1) ++
            '\n' :: (indentChars d ++ (rbrace :: rest)))) :=
          skipJWs_cons_not_ws _ _ (by decide)
        simp only [Option.bind, hcol, List.head?_cons, Option.some.injEq,
          List.drop_succ_cons, List.drop_zero, List.nil_append]
        simp only [eq_self_iff_true, if_true, List.drop_succ_cons, List.drop_zero]
        rw [show (' ' :: (renderJson v (d + 1) ++
              '\n' :: (indentChars d ++ (rbrace :: rest)))) =
            [' '] ++ (renderJson v (d + 1) ++
              '\n' :: (indentChars d ++ (rbrace :: rest))) from rfl,
          parseVal_ws_drop f' [' '] _ (by intro c hc; simp at hc; rw [hc]; rfl),
          parseVal_render v (d + 1) f' _ hfv (notDigitHead_cons _ _ (by decide))]
        have hrb : skipJWs (rbrace :: rest) = rbrace :: rest :=
          skipJWs_cons_not_ws _ _ (by decide)
        simp only [Option.bind, skipJWs_nl_indent, hrb, List.head?_cons,
          Option.some.injEq, List.drop_succ_cons, List.drop_zero,
          eq_false (show ¬(rbrace = ',') from by decide), if_false]
        simp only [eq_self_iff_true, if_true]
        rfl
      | cons q qs =>
        have hfqs : fneedObj (q :: qs) ≤ f' := by
          have := fneed_pos v; simp [fneedObj] at hf ⊢; omega
        rw [objTail_cons, renderFields_cons]
        simp only [List.cons_append, List.append_assoc, List.singleton_append, List.nil_append]
        unfold parseObjItems
        have hq : skipJWs ('"' :: (escList k.toList ++
            ('"' :: (':' :: (' ' :: (renderJson v (d + 1) ++
              (',' :: ('\n' :: (renderFields (q :: qs) (d + 1) ++
                '\n' :: (indentChars d ++ (rbrace :: rest))))))))))) =
            '"' :: (escList k.toList ++
            ('"' :: (':' :: (' ' :: (renderJson v (d + 1) ++
              (',' :: ('\n' :: (renderFields (q :: qs) (d + 1) ++
                '\n' :: (indentChars d ++ (rbrace :: rest)))))))))) :=
          skipJWs_cons_not_ws _ _ (by decide)
        simp only [skipJWs_nl_indent, hq, List.head?_cons, Option.some.injEq,
          List.drop_succ_cons, List.drop_zero, List.nil_append,
          eq_false (show ¬('"' = rbrace) from by decide), if_false]
        simp only [eq_self_iff_true, if_true, List.drop_succ_cons, List.drop_zero]
        rw [parseStrBody_escList]
        have hcol : skipJWs (':' :: (' ' :: (renderJson v (d + 1) ++
            (',' :: ('\n' :: (renderFields (q :: qs) (d + 1) ++
              '\n' :: (indentChars d ++ (rbrace :: rest)))))))) =
            ':' :: (' ' :: (renderJson v (d + 1) ++
            (',' :: ('\n' :: (renderFields (q :: qs) (d + 1) ++
              '\n' :: (indentChars d ++ (rbrace :: rest))))))) :=
          skipJWs_cons_not_ws _ _ (by decide)
        simp only [Option.bind, hcol, List.head?_cons, Option.some.injEq,
          List.drop_succ_cons, List.drop_zero, List.nil_append]
        simp only [eq_self_iff_true, if_true, List.drop_succ_cons, List.drop_zero]
        rw [show (' ' :: (renderJson v (d + 1) ++
              (',' :: ('\n' :: (renderFields (q :: qs) (d + 1) ++
                '\n' :: (indentChars d ++ (rbrace :: rest))))))) =
            [' '] ++ (renderJson v (d + 1) ++
              (',' :: ('\n' :: (renderFields (q :: qs) (d + 1) ++
                '\n' :: (indentChars d ++ (rbrace :: rest)))))) from rfl,
          parseVal_ws_drop f' [' '] _ (by intro c hc; simp at hc; rw [hc]; rfl),
          parseVal_render v (d + 1) f' _ hfv (notDigitHead_cons _ _ (by decide))]
        have hcomma : skipJWs (',' :: ('\n' :: (renderFields (q :: qs) (d + 1) ++
            '\n' :: (indentChars d ++ (rbrace :: rest))))) =
            ',' :: ('\n' :: (renderFields (q :: qs) (d + 1) ++
            '\n' :: (indentChars d ++ (rbrace :: rest)))) :=
          skipJWs_cons_not_ws _ _ (by decide)
        have hobj : objTail (q :: qs) d ++ rest =
            '\n' :: (renderFields (q :: qs) (d + 1) ++
              '\n' :: (indentChars d ++ (rbrace :: rest))) := by
          rw [objTail_cons]
          simp [List.cons_append, List.append_assoc, List.singleton_append, List.nil_append]
        simp only [Option.bind, hcomma, List.head?_cons, Option.some.injEq,
          List.drop_succ_cons, List.drop_zero, List.nil_append]
        simp only [eq_self_iff_true, if_true]
        rw [← hobj, parseObj_render (q :: qs) d f' rest hfqs]
        rfl

end



mutual

theorem fneed_le_render (j : Json) (d : Nat) :
    fneed j ≤ (renderJson j d).length + 1 := by
  cases j with
  | null => rw [renderJson_null]; simp [fneed]
  | bool b => cases b with
    | true => rw [renderJson_true]; simp [fneed]
    | false => rw [renderJson_false]; simp [fneed]
  | num i => simp [fneed]
  | str s => simp [fneed]
  | arr l =>
    have h := fneedArr_le_arrTail l d
    rw [renderJson_arr]
    simp only [fneed, List.length_cons]
    omega
  | obj l =>
    have h := fneedObj_le_objTail l d
    rw [renderJson_obj]
    simp only [fneed, List.length_cons]
    omega

theorem fneedArr_le_arrTail (l : List Json) (d : Nat) :
    fneedArr l ≤ (arrTail l d).length := by
  cases l with
  | nil => rw [arrTail_nil]; simp [fneedArr]
  | cons x xs =>
    have h1 := fneed_le_render x (d + 1)
    cases xs with
    | nil =>
      rw [arrTail_cons, renderItems_single]
      simp only [fneedArr, List.length_cons, List.length_append, indentChars,
        List.length_replicate, List.length_singleton]
      omega
    | cons y ys =>
      have h2 := fneedArr_le_arrTail (y :: ys) d
      rw [arrTail_cons] at h2
      rw [arrTail_cons, renderItems_cons]
      simp only [fneedArr, List.length_cons, List.length_append, indentChars,
        List.length_replicate, List.length_singleton] at h2 ⊢
      omega

theorem fneedObj_le_objTail (ps : List (String × Json)) (d : Nat) :
    fneedObj ps ≤ (objTail ps d).length := by
  cases ps with
  | nil => rw [objTail_nil]; simp [fneedObj]
  | cons x qs =>
    obtain ⟨k, v⟩ := x
    have h1 := fneed_le_render v (d + 1)
    cases qs with
    | nil =>
      rw [objTail_cons, renderFields_single]
      simp only [fneedObj, List.length_cons, List.length_append, indentChars,
        List.length_replicate, List.length_singleton]
      omega
    | cons q qs' =>
      have h2 := fneedObj_le_objTail (q :: qs') d
      rw [objTail_cons] at h2
      rw [objTail_cons, renderFields_cons]
      simp only [fneedObj, List.length_cons, List.length_append, indentChars,
        List.length_replicate, List.length_singleton] at h2 ⊢
      omega

end

theorem jsonParse_render (j : Json) :
    jsonParse (String.mk (renderJson j 0)) = some j := by
  have hb : fneed j ≤ (renderJson j 0).length + 2 := by
    have := fneed_le_render j 0
    omega
  have h := parseVal_render j 0 ((renderJson j 0).length + 2) [] hb notDigitHead_nil
  rw [List.append_nil] at h
  unfold jsonParse
  rw [show (String.mk (renderJson j 0)).toList = renderJson j 0 from rfl, h]
  rfl



theorem CacheSystem.lookup_insertEntry_self (c : Cache) (k : String)
    (e : CacheEntry) : CacheSystem.lookup (CacheSystem.insertEntry c k e) k = some e := by
  induction c with
  | nil => simp [CacheSystem.insertEntry, CacheSystem.lookup]
  | cons p rest ih =>
    by_cases h : p.1 = k
    · simp [CacheSystem.insertEntry, h, CacheSystem.lookup]
    · simpa [CacheSystem.insertEntry, h, CacheSystem.lookup, List.find?] using ih

theorem CacheSystem.isMessageProcessed_mark (c : Cache) (sender id : String)
    (ttl t0 t : Nat) :
    CacheSystem.isMessageProcessed
      (CacheSystem.markMessageProcessed c sender id ttl t0) sender id t =
      decide (t ≤ t0 + ttl) := by
  unfold CacheSystem.isMessageProcessed CacheSystem.markMessageProcessed
    CacheSystem.has CacheSystem.get CacheSystem.set
  rw [CacheSystem.lookup_insertEntry_self]
  by_cases h : t0 + ttl < t
  · simp [h, Nat.not_le_of_lt h]
  · simp [h, Nat.le_of_not_lt h]

theorem StateManager.lookupSession_insertSession_self
    (l : List (String × Session)) (p : String) (s : Session) :
    StateManager.lookupSession (StateManager.insertSession l p s) p = some s := by
  induction l with
  | nil => simp [StateManager.insertSession, StateManager.lookupSession]
  | cons q rest ih =>
    by_cases h : q.1 = p
    · simp [StateManager.insertSession, h, StateManager.lookupSession]
    · simpa [StateManager.insertSession, h, StateManager.lookupSession,
        List.find?] using ih

/-- After `updateUserSession` on an existing session with no `data` key in
the partial update, the stored session keeps its `data` and takes the
updated flow/step. -/
theorem StateManager.updateUserSession_keeps_data (st : BotState)
    (p : String) (u : SessionUpdate) (now : Nat) (s0 : Session)
    (hs : StateManager.lookupSession st.sessions p = some s0)
    (hd : u.data = none) :
    ∃ s1, StateManager.lookupSession
            (StateManager.updateUserSession st p u now).sessions p = some s1 ∧
          s1.data = s0.data ∧
          s1.currentFlow = u.currentFlow.getD s0.currentFlow ∧
          s1.currentStep = u.currentStep.getD s0.currentStep := by
  simp only [StateManager.updateUserSession, StateManager.getUserSession, hs]
  cases hf : u.currentFlow with
  | none =>
    exact ⟨_, StateManager.lookupSession_insertSession_self _ _ _,
      by simp [hd], by simp, by simp⟩
  | some f =>
    by_cases hne : (decide (f ≠ "") && decide (f ≠ s0.currentFlow)) = true
    · exact ⟨_, StateManager.lookupSession_insertSession_self _ _ _,
        by simp [hd, apply_ite], by simp [apply_ite], by simp [apply_ite]⟩
    · exact ⟨_, StateManager.lookupSession_insertSession_self _ _ _,
        by simp [hd, apply_ite], by simp [apply_ite], by simp [apply_ite]⟩

theorem StateManager.getUserSession_flag (st : BotState) (p : String) (now : Nat) :
    (StateManager.getUserSession st p now).2.chatbot_is_on = st.chatbot_is_on := by
  unfold StateManager.getUserSession
  cases h : StateManager.lookupSession st.sessions p <;> simp [h]

theorem StateManager.getUserSession_timers (st : BotState) (p : String) (now : Nat) :
    (StateManager.getUserSession st p now).2.reenableTimers = st.reenableTimers := by
  unfold StateManager.getUserSession
  cases h : StateManager.lookupSession st.sessions p <;> simp [h]

theorem StateManager.updateUserSession_flag (st : BotState) (p : String)
    (u : SessionUpdate) (now : Nat) :
    (StateManager.updateUserSession st p u now).chatbot_is_on = st.chatbot_is_on := by
  unfold StateManager.updateUserSession
  exact StateManager.getUserSession_flag st p now

theorem StateManager.updateUserSession_timers (st : BotState) (p : String)
    (u : SessionUpdate) (now : Nat) :
    (StateManager.updateUserSession st p u now).reenableTimers = st.reenableTimers := by
  unfold StateManager.updateUserSession
  exact StateManager.getUserSession_timers st p now

/-- After `updateUserSession` whose partial update carries all three keys,
the stored session holds exactly the updated flow, step and data. -/
theorem StateManager.lookupSession_updateUserSession_some (st : BotState)
    (p : String) (now : Nat) (f stp : String) (d : SessData) :
    ∃ s1, StateManager.lookupSession
        (StateManager.updateUserSession st p
          { currentFlow := some f, currentStep := some stp, data := some d }
          now).sessions p = some s1 ∧
      s1.currentFlow = f ∧ s1.currentStep = stp ∧ s1.data = d := by
  simp only [StateManager.updateUserSession]
  exact ⟨_, StateManager.lookupSession_insertSession_self _ _ _,
    by simp [apply_ite], by simp [apply_ite], by simp [apply_ite]⟩

/-! ## Claim theorems -/

/-- C2.  After `markMessageProcessed(sender, eventId, T)` at time `t0`
(with no later operation on the cache), `isMessageProcessed(sender,
eventId)` answers `true` at every time `t ≤ t0 + T` and `false` at every
time `t > t0 + T` — whatever was in the cache before, since a re-insert
replaces the binding.  The default TTL is 60 seconds (60000 ms), and
`performCleanup` removes exactly the entries past their
`expirationTime`. -/
theorem cache_expiry_contract (sender eventId : String) (T t0 t : Nat)
    (c : Cache) :
    (t ≤ t0 + T →
      CacheSystem.isMessageProcessed
        (CacheSystem.markMessageProcessed c sender eventId T t0)
        sender eventId t = true) ∧
    (t0 + T < t →
      CacheSystem.isMessageProcessed
        (CacheSystem.markMessageProcessed c sender eventId T t0)
        sender eventId t = false) ∧
    CacheSystem.defaultTTL = 60000 ∧
    (∀ (c2 : Cache) (now : Nat) (k : String) (e : CacheEntry),
      (k, e) ∈ CacheSystem.performCleanup c2 now ↔
        (k, e) ∈ c2 ∧ now ≤ e.expirationTime) := by
  refine ⟨fun h => ?_, fun h => ?_, rfl, fun c2 now k e => ?_⟩
  · rw [CacheSystem.isMessageProcessed_mark]; simpa using h
  · rw [CacheSystem.isMessageProcessed_mark]; simpa using Nat.not_le_of_lt h
  · show (k, e) ∈ List.filter _ c2 ↔ _
    rw [List.mem_filter]
    simp [Nat.not_lt]

/-- Witness for C2 at concrete inputs: an entry inserted at time 0 with the
default TTL answers `true` at 60000 ms and `false` at 60001 ms. -/
theorem cache_expiry_contract_witness :
    CacheSystem.isMessageProcessed
      (CacheSystem.markMessageProcessed [] "5519@c.us" "ev1" 60000 0)
      "5519@c.us" "ev1" 60000 = true ∧
    CacheSystem.isMessageProcessed
      (CacheSystem.markMessageProcessed [] "5519@c.us" "ev1" 60000 0)
      "5519@c.us" "ev1" 60001 = false :=
  ⟨(cache_expiry_contract "5519@c.us" "ev1" 60000 0 60000 []).1 (by decide),
   (cache_expiry_contract "5519@c.us" "ev1" 60000 0 60001 []).2.1 (by decide)⟩

/-- C3.  `Utils.isValidCPF` accepts the reference number masked and
unmasked, rejects the constant string, and rejects every all-digit
11-character string whose last two digits disagree with the weighted
mod-11 check digits the code computes from the leading digits. -/
theorem isValidCPF_contract :
    isValidCPF "529.982.247-25" = true ∧
    isValidCPF "52998224725" = true ∧
    isValidCPF "11111111111" = false ∧
    (∀ s : String, s.toList.length = 11 →
      (∀ c ∈ s.toList, isDigitCh c = true) →
      ¬(cpfDigit1 (s.toList.map digitVal) = (s.toList.map digitVal).getD 9 0 ∧
        cpfDigit2 (s.toList.map digitVal) = (s.toList.map digitVal).getD 10 0) →
      isValidCPF s = false) := by
  refine ⟨by decide, by decide, by decide, fun s hlen hdig hne => ?_⟩
  unfold isValidCPF
  split
  · rfl
  · rw [List.filter_eq_self.mpr hdig]
    rw [if_neg (by simpa using hlen)]
    split
    · rfl
    · rw [Bool.and_eq_false_eq_eq_false_or_eq_false]
      rcases Decidable.not_and_iff_or_not.mp hne with h | h
      · exact Or.inl (by simpa using h)
      · exact Or.inr (by simpa using h)

/-- Witness for C3's universal part: `52998224799` is an 11-digit string
with wrong check digits, and the validator rejects it. -/
theorem isValidCPF_contract_witness :
    ("52998224799".toList.length = 11 ∧
      (∀ c ∈ "52998224799".toList, isDigitCh c = true)) ∧
    isValidCPF "52998224799" = false :=
  ⟨⟨by decide, by decide⟩,
   isValidCPF_contract.2.2.2 "52998224799" (by decide) (by decide) (by decide)⟩

/-- C10.  `enableBot` leaves pending re-enable timers in place and a second
`disableBot` only appends a new one; a due timer re-enables the bot
unconditionally.  Hence in the scenario `disableBot(m1)` at `t0` followed
within the first window by `disableBot(m2)` at `t1` with `m2 > m1`, the
first timer comes due strictly before the second window's deadline and
firing it turns the bot back on while the second window's timer is still
pending: the later window is cut short. -/
theorem disableBot_window_cut_short (st : BotState) (m1 m2 t0 t1 : Nat)
    (h01 : t0 ≤ t1) (hwin : t1 < t0 + m1 * 60 * 1000) (hm : m1 < m2) :
    (StateManager.enableBot
        (StateManager.disableBot (StateManager.disableBot st m1 t0) m2 t1)).reenableTimers =
      (StateManager.disableBot (StateManager.disableBot st m1 t0) m2 t1).reenableTimers ∧
    (StateManager.disableBot (StateManager.disableBot st m1 t0) m2 t1).chatbot_is_on = false ∧
    (StateManager.disableBot (StateManager.disableBot st m1 t0) m2 t1).reenableTimers =
      st.reenableTimers ++ [t0 + m1 * 60 * 1000, t1 + m2 * 60 * 1000] ∧
    t0 + m1 * 60 * 1000 < t1 + m2 * 60 * 1000 ∧
    (StateManager.fireDueTimers
        (StateManager.disableBot (StateManager.disableBot st m1 t0) m2 t1)
        (t0 + m1 * 60 * 1000)).chatbot_is_on = true ∧
    (t1 + m2 * 60 * 1000) ∈
      (StateManager.fireDueTimers
        (StateManager.disableBot (StateManager.disableBot st m1 t0) m2 t1)
        (t0 + m1 * 60 * 1000)).reenableTimers := by
  have hlt : t0 + m1 * 60 * 1000 < t1 + m2 * 60 * 1000 := by
    have : m1 * 60 * 1000 < m2 * 60 * 1000 := by
      have h60 : (0:Nat) < 60 * 1000 := by decide
      calc m1 * 60 * 1000 = m1 * (60 * 1000) := by ring
        _ < m2 * (60 * 1000) := Nat.mul_lt_mul_of_lt_of_le hm (Nat.le_refl _) h60
        _ = m2 * 60 * 1000 := by ring
    omega
  have hfire : (StateManager.disableBot (StateManager.disableBot st m1 t0) m2 t1).reenableTimers.any
      (fun d => d ≤ t0 + m1 * 60 * 1000) = true := by
    simp only [StateManager.disableBot, List.append_assoc, List.any_append]
    simp
  refine ⟨rfl, rfl, by simp [StateManager.disableBot], hlt, ?_, ?_⟩
  · simp only [StateManager.fireDueTimers, hfire, if_true]
  · simp only [StateManager.fireDueTimers, hfire, if_true]
    simp only [StateManager.disableBot, List.append_assoc]
    simp [List.mem_filter, Nat.not_le_of_lt hlt]

/-- Witness for C10: `disableBot(1)` at time 0 then `disableBot(60)` at
time 30000; the 1-minute timer fires at 60000 and re-enables the bot
3570 seconds before the 60-minute window would have ended. -/
theorem disableBot_window_cut_short_witness :
    (StateManager.fireDueTimers
      (StateManager.disableBot
        (StateManager.disableBot (freshState 0) 1 0) 60 30000)
      60000).chatbot_is_on = true :=
  (disableBot_window_cut_short (freshState 0) 1 60 0 30000 (by decide)
    (by decide) (by decide)).2.2.2.2.1

/-- C5 counterexample to the unconditional claim: when the originating
user's address is the configured broker number itself
(`5519995910737@c.us`), the operator notification of `transferToHuman` is
delivered to the originating user's own (formatted) address. -/
theorem transferToHuman_self_notification :
    (MainFlow.transferToHuman defaultEnv 0 "5519995910737@c.us"
        "Solicitação de atendimento" (freshState 0)).2.2 =
      [OutMsg.brokerNotify (formatPhone "5519995910737@c.us") "Não informado"
         "5519995910737" "Solicitação de atendimento",
       OutMsg.text (formatPhone "5519995910737@c.us") MainFlow.transferAckText] := by
  decide

/-- C5 (amended: provided the originating address does not format to the
configured broker address itself).  `transferToHuman` sends exactly one
operator notification — addressed to the broker address, hence not to the
originating user — and exactly one acknowledgment to the originating
user; the global toggle is cleared with a 60-minute re-enable timer
scheduled, and the session moves to the dedicated handoff flow
`atendimento`. -/
theorem transferToHuman_contract (env : Env) (now : Nat)
    (sender reason : String) (st : BotState)
    (h : formatPhone env.brokerNumber ≠ formatPhone sender) :
    ∃ cn cc st2,
      MainFlow.transferToHuman env now sender reason st =
        (true, st2,
          [OutMsg.brokerNotify (formatPhone env.brokerNumber) cn cc reason,
           OutMsg.text (formatPhone sender) MainFlow.transferAckText]) ∧
      formatPhone env.brokerNumber ≠ formatPhone sender ∧
      st2.chatbot_is_on = false ∧
      st2.reenableTimers = st.reenableTimers ++ [now + 60 * 60 * 1000] ∧
      (∃ s1, StateManager.lookupSession st2.sessions sender = some s1 ∧
        s1.currentFlow = "atendimento" ∧ s1.currentStep = "transferido" ∧
        s1.data.transferred_at = some now ∧ s1.data.reason = some reason) := by
  refine ⟨_, _, _, rfl, h, ?_, ?_, ?_⟩
  · rw [StateManager.updateUserSession_flag]
    rfl
  · rw [StateManager.updateUserSession_timers]
    show (StateManager.getUserSession st sender now).2.reenableTimers ++ _ = _
    rw [StateManager.getUserSession_timers]
  · obtain ⟨s1, hl, hf, hs, hd⟩ :=
      StateManager.lookupSession_updateUserSession_some
        (StateManager.disableBot (StateManager.getUserSession st sender now).2 60 now)
        sender now "atendimento" "transferido"
        { SessData.empty with transferred_at := some now, reason := some reason }
    exact ⟨s1, hl, hf, hs, by rw [hd], by rw [hd]⟩

/-- Witness for C5's amended theorem at a concrete originating address
distinct from the broker address. -/
theorem transferToHuman_contract_witness :
    formatPhone defaultEnv.brokerNumber ≠ formatPhone "5519777777777@c.us" ∧
    ∃ cn cc st2,
      MainFlow.transferToHuman defaultEnv 0 "5519777777777@c.us" "Teste"
          (freshState 0) =
        (true, st2,
          [OutMsg.brokerNotify (formatPhone defaultEnv.brokerNumber) cn cc "Teste",
           OutMsg.text (formatPhone "5519777777777@c.us") MainFlow.transferAckText]) ∧
      formatPhone defaultEnv.brokerNumber ≠ formatPhone "5519777777777@c.us" ∧
      st2.chatbot_is_on = false ∧
      st2.reenableTimers = (freshState 0).reenableTimers ++ [0 + 60 * 60 * 1000] ∧
      (∃ s1, StateManager.lookupSession st2.sessions "5519777777777@c.us" = some s1 ∧
        s1.currentFlow = "atendimento" ∧ s1.currentStep = "transferido" ∧
        s1.data.transferred_at = some 0 ∧ s1.data.reason = some "Teste") :=
  ⟨by decide,
   transferToHuman_contract defaultEnv 0 "5519777777777@c.us" "Teste"
     (freshState 0) (by decide)⟩

/-- C6.  The quote-intake step handler `handleColetaEmail` implements the
documented back-navigation (the step's own prompt says the back keyword
returns to the name), but the router never lets it see the input: `voltar`
is in `Utils.isMenuCommand`'s list, so `handleGlobalCommands` intercepts
it first and resets the session to the welcome flow with `data = {}` —
the collected `data.cotacao.nome` is lost and the step is not
`coleta_nome`.  The three conjuncts evaluate the code at the failing
input: `voltar` is a menu command; the router resets the session and
erases the collected data; the step handler itself, invoked directly,
performs the documented back-step preserving the name. -/
theorem voltar_resets_quote_intake :
    isMenuCommand "voltar" = true ∧
    ((StateManager.lookupSession
        (MainFlow.processMessage defaultEnv
          { id := "ev1", sender := "5519888888888@c.us", body := "voltar" }
          1000 [] mariaState).state.sessions
        "5519888888888@c.us").map
        (fun s => (s.currentFlow, s.currentStep, s.data.cotacao)) =
      some ("welcome_response", "aguardando_escolha", none)) ∧
    ((StateManager.lookupSession
        (CotacaoFlow.handleColetaEmail defaultEnv 1000 "5519888888888@c.us"
          "voltar" mariaSession mariaState).2.1.sessions
        "5519888888888@c.us").map
        (fun s => (s.currentFlow, s.currentStep,
                   (spreadCot s.data.cotacao).nome)) =
      some ("cotacao", "coleta_nome", some "Maria Silva")) := by
  refine ⟨by decide, by decide, by decide⟩

/-- C9.  Global-command interception matches keywords as substrings of the
normalized input: whenever the normalized body contains a greeting keyword
(and no menu keyword), the router — under an active bot and a fresh event
— intercepts before flow dispatch: the invocation succeeds having sent
only the welcome menu (the current step's handler never runs and emits
nothing), and the sender's session is moved into the welcome interaction
(`welcome_response`/`aguardando_escolha` after `sendWelcome`) with its
collected `data` untouched. -/
theorem greeting_substring_intercepts (env : Env) (m : WMessage)
    (now : Nat) (cache : Cache) (st : BotState)
    (hfresh : CacheSystem.isMessageProcessed cache m.sender m.id now = false)
    (hon : st.chatbot_is_on = true)
    (hmenu : isMenuCommand (normalizeText m.body) = false)
    (hgreet : isGreeting (normalizeText m.body) = true) :
    (MainFlow.processMessage env m now cache st).ok = true ∧
    (MainFlow.processMessage env m now cache st).out =
      [OutMsg.seen m.id, OutMsg.listMenu (formatPhone m.sender) Menu.welcome] ∧
    (∀ s0, StateManager.lookupSession st.sessions m.sender = some s0 →
      ∃ s1, StateManager.lookupSession
          (MainFlow.processMessage env m now cache st).state.sessions
          m.sender = some s1 ∧
        s1.currentFlow = "welcome_response" ∧
        s1.currentStep = "aguardando_escolha" ∧
        s1.data = s0.data) := by
  have hact : StateManager.isBotActive
      (StateManager.incrementMessageCount st) = true := hon
  have hpm : MainFlow.processMessage env m now cache st =
      { ok := true,
        cache := CacheSystem.markMessageProcessed cache m.sender m.id
          CacheSystem.defaultTTL now,
        state := (MainFlow.sendWelcome now m.sender
          (StateManager.updateUserSession
            (StateManager.incrementMessageCount st) m.sender
            { currentFlow := some "welcome", currentStep := some "inicio" }
            now)).2.1,
        out := OutMsg.seen m.id ::
          (MainFlow.sendWelcome now m.sender
            (StateManager.updateUserSession
              (StateManager.incrementMessageCount st) m.sender
              { currentFlow := some "welcome", currentStep := some "inicio" }
              now)).2.2 } := by
    simp only [MainFlow.processMessage, hfresh, Bool.false_eq_true, if_false,
      MainFlow.processAfterDedup, hact, Bool.not_true, Bool.false_and,
      if_false, MainFlow.handleGlobalCommands, hmenu, hgreet, if_true,
      Bool.true_eq_false]
  refine ⟨by rw [hpm], by rw [hpm]; rfl, fun s0 hs0 => ?_⟩
  have hs0' : StateManager.lookupSession
      (StateManager.incrementMessageCount st).sessions m.sender = some s0 := hs0
  obtain ⟨sA, hlA, hdA, hfA, _⟩ :=
    StateManager.updateUserSession_keeps_data
      (StateManager.incrementMessageCount st) m.sender
      { currentFlow := some "welcome", currentStep := some "inicio" } now s0
      hs0' rfl
  obtain ⟨sB, hlB, hdB, hfB, hsB⟩ :=
    StateManager.updateUserSession_keeps_data
      (StateManager.updateUserSession
        (StateManager.incrementMessageCount st) m.sender
        { currentFlow := some "welcome", currentStep := some "inicio" } now)
      m.sender
      { currentFlow := some "welcome_response",
        currentStep := some "aguardando_escolha" } now sA hlA rfl
  refine ⟨sB, ?_, by simpa using hfB, by simpa using hsB, hdB.trans hdA⟩
  rw [hpm]
  exact hlB

/-- Witness for C9 at the concrete input `"dois"` (the Portuguese word
for option two contains the greeting `"oi"`) sent mid-intake. -/
theorem greeting_substring_intercepts_witness :
    (MainFlow.processMessage defaultEnv
        { id := "ev2", sender := "5519888888888@c.us", body := "dois" }
        1000 [] mariaState).ok = true ∧
    (MainFlow.processMessage defaultEnv
        { id := "ev2", sender := "5519888888888@c.us", body := "dois" }
        1000 [] mariaState).out =
      [OutMsg.seen "ev2",
       OutMsg.listMenu (formatPhone "5519888888888@c.us") Menu.welcome] ∧
    (∃ s1, StateManager.lookupSession
        (MainFlow.processMessage defaultEnv
          { id := "ev2", sender := "5519888888888@c.us", body := "dois" }
          1000 [] mariaState).state.sessions "5519888888888@c.us" = some s1 ∧
      s1.currentFlow = "welcome_response" ∧
      s1.currentStep = "aguardando_escolha" ∧
      s1.data = mariaSession.data) :=
  ⟨(greeting_substring_intercepts defaultEnv
      { id := "ev2", sender := "5519888888888@c.us", body := "dois" }
      1000 [] mariaState (by decide) rfl (by decide) (by decide)).1,
   (greeting_substring_intercepts defaultEnv
      { id := "ev2", sender := "5519888888888@c.us", body := "dois" }
      1000 [] mariaState (by decide) rfl (by decide) (by decide)).2.1,
   (greeting_substring_intercepts defaultEnv
      { id := "ev2", sender := "5519888888888@c.us", body := "dois" }
      1000 [] mariaState (by decide) rfl (by decide) (by decide)).2.2
     mariaSession (by decide)⟩

/-- C4.  With the global toggle off and a body that is not an allow-listed
menu command, a fresh inbound event drops before the session layer: the
router returns `false`, the only trace event is the read receipt (no
outbound message send), the session map is untouched — yet
`total_messages` is incremented, because step 3 of the router (the
counter) precedes step 4 (the bot-active check). -/
theorem disabled_bot_counts_message (env : Env) (m : WMessage) (now : Nat)
    (cache : Cache) (st : BotState)
    (hfresh : CacheSystem.isMessageProcessed cache m.sender m.id now = false)
    (hoff : st.chatbot_is_on = false)
    (hmenu : isMenuCommand m.body = false) :
    MainFlow.processMessage env m now cache st =
      { ok := false,
        cache := CacheSystem.markMessageProcessed cache m.sender m.id
          CacheSystem.defaultTTL now,
        state := StateManager.incrementMessageCount st,
        out := [OutMsg.seen m.id] } ∧
    (StateManager.incrementMessageCount st).sessions = st.sessions ∧
    (StateManager.incrementMessageCount st).stats.total_messages =
      st.stats.total_messages + 1 ∧
    (StateManager.incrementMessageCount st).stats.total_users =
      st.stats.total_users ∧
    [OutMsg.seen m.id].filter OutMsg.isSend = [] := by
  have hact : StateManager.isBotActive
      (StateManager.incrementMessageCount st) = false := hoff
  refine ⟨?_, rfl, rfl, rfl, rfl⟩
  simp only [MainFlow.processMessage, hfresh, Bool.false_eq_true, if_false,
    MainFlow.processAfterDedup, hact, hmenu, Bool.not_false, Bool.true_and,
    if_true]

/-- Witness for C4: an arbitrary text under a disabled toggle increments
the counter and nothing else. -/
theorem disabled_bot_counts_message_witness :
    MainFlow.processMessage defaultEnv
        { id := "ev3", sender := "5519888888888@c.us", body := "qualquer coisa" }
        1000 [] { mariaState with chatbot_is_on := false } =
      { ok := false,
        cache := CacheSystem.markMessageProcessed [] "5519888888888@c.us" "ev3"
          CacheSystem.defaultTTL 1000,
        state := StateManager.incrementMessageCount
          { mariaState with chatbot_is_on := false },
        out := [OutMsg.seen "ev3"] } :=
  (disabled_bot_counts_message defaultEnv
    { id := "ev3", sender := "5519888888888@c.us", body := "qualquer coisa" }
    1000 [] { mariaState with chatbot_is_on := false }
    (by decide) rfl (by decide)).1

/-- C1.  Dedup idempotence: once `processMessage` has handled a fresh
event `(sender, eventId)` at time `t1`, handing the same event to the
router again at any time `t2` within the TTL window is a complete no-op —
it returns `false` with the cache, the session map, the stats counters
and the outbound trace exactly as the first call left them (the second
call emits nothing, so over the two calls there is exactly one
session-mutation sequence and at most one outbound send sequence,
produced by the first call alone). -/
theorem dedup_second_call_no_op (env : Env) (m : WMessage) (t1 t2 : Nat)
    (cache : Cache) (st : BotState)
    (hfresh : CacheSystem.isMessageProcessed cache m.sender m.id t1 = false)
    (hwin : t2 ≤ t1 + CacheSystem.defaultTTL) :
    MainFlow.processMessage env m t2
        (MainFlow.processMessage env m t1 cache st).cache
        (MainFlow.processMessage env m t1 cache st).state =
      { ok := false,
        cache := (MainFlow.processMessage env m t1 cache st).cache,
        state := (MainFlow.processMessage env m t1 cache st).state,
        out := [] } := by
  have hc : (MainFlow.processMessage env m t1 cache st).cache =
      CacheSystem.markMessageProcessed cache m.sender m.id
        CacheSystem.defaultTTL t1 := by
    simp [MainFlow.processMessage, hfresh]
  have hguard : CacheSystem.isMessageProcessed
      (MainFlow.processMessage env m t1 cache st).cache m.sender m.id t2 = true := by
    rw [hc, CacheSystem.isMessageProcessed_mark]
    simpa using hwin
  revert hguard
  generalize MainFlow.processMessage env m t1 cache st = r1
  intro hguard
  simp only [MainFlow.processMessage, hguard, if_true]

/-- Witness for C1: the duplicate of a greeting handled at t=1000,
redelivered at t=31000 (within the 60-second window), changes nothing. -/
theorem dedup_second_call_no_op_witness :
    MainFlow.processMessage defaultEnv
        { id := "ev4", sender := "5519888888888@c.us", body := "oi" } 31000
        (MainFlow.processMessage defaultEnv
          { id := "ev4", sender := "5519888888888@c.us", body := "oi" }
          1000 [] mariaState).cache
        (MainFlow.processMessage defaultEnv
          { id := "ev4", sender := "5519888888888@c.us", body := "oi" }
          1000 [] mariaState).state =
      { ok := false,
        cache := (MainFlow.processMessage defaultEnv
          { id := "ev4", sender := "5519888888888@c.us", body := "oi" }
          1000 [] mariaState).cache,
        state := (MainFlow.processMessage defaultEnv
          { id := "ev4", sender := "5519888888888@c.us", body := "oi" }
          1000 [] mariaState).state,
        out := [] } :=
  dedup_second_call_no_op defaultEnv
    { id := "ev4", sender := "5519888888888@c.us", body := "oi" }
    1000 31000 [] mariaState (by decide) (by decide)

/-- C7.  Load fallback: `loadState` never fails — with a missing file it
returns the default fresh state document, with a file whose content does
not parse as JSON it also returns the default document, and only when the
content parses does it return the parsed document instead; the default
document decodes to the fresh state: toggle on, empty session map, and
zeroed message/user counters. -/
theorem loadState_fallback (now : Nat) :
    loadState none now = defaultStateJson now ∧
    (∀ s, jsonParse s = none → loadState (some s) now = defaultStateJson now) ∧
    (∀ s j, jsonParse s = some j → loadState (some s) now = j) ∧
    decodeState (defaultStateJson now) =
      some { chatbot_is_on := true, bot_start_time := now, sessions := [],
             stats := { total_messages := 0, total_users := 0,
                        last_reset := now } } := by
  refine ⟨rfl, ?_, ?_, ?_⟩
  · intro s hs
    show (match jsonParse s with
          | some j => j
          | none => defaultStateJson now) = defaultStateJson now
    rw [hs]
  · intro s j hs
    show (match jsonParse s with
          | some j => j
          | none => defaultStateJson now) = j
    rw [hs]
  · exact decodeState_encodeState (defaultPersisted now)

/-- Witness for C7: the file content "[" is not valid JSON, and loading
it at time 5 falls back to the default document. -/
theorem loadState_fallback_witness :
    jsonParse "[" = none ∧ loadState (some "[") 5 = defaultStateJson 5 :=
  ⟨rfl, (loadState_fallback 5).2.1 "[" rfl⟩

/-- C8.  Session store round trip: rendering the persisted state with
`saveState`'s `JSON.stringify(·, null, 2)` and reading it back with
`loadState`'s `JSON.parse` followed by the persisted-layout decoding
reproduces the identical state — every address keeps its session fields. -/
theorem session_store_roundtrip (p : PersistedState) :
    (jsonParse (stringifyState p)).bind decodeState = some p := by
  unfold stringifyState
  rw [jsonParse_render (encodeState p)]
  exact decodeState_encodeState p

end Djs
